import Mathlib

/-!
Verification of the deterministic core of the Autonomous Financial Due
Diligence agent: the iXBRL fact scanner (`tools/adk_pdf_tools.py`), the
revenue reconciler (`agents/extraction_agent_adk.py`), the metrics and
valuation layers (`agents/financial_agent_adk.py`,
`tools/financial_calcs.py`, `agents/valuation_agent_adk.py`) and the
section map / retrieval layer (`tools/adk_text_tools.py`,
`agents/qa_agent_adk.py`).

The Python code is shallowly embedded: Python `dict`s become association
lists (`List (String × α)`) with in-place-update semantics, Python `float`
arithmetic is modelled by exact rationals (`ℚ`; the claims under check are
exact-arithmetic statements at magnitudes far below where binary64 rounds
integers), `None` becomes `Option.none`, and fallible parsing returns
`Option`.
-/

namespace DD

/-! ## Association-list maps with Python-dict update semantics

`lookup` finds the value of the first matching key; `upd` overwrites a
present key in place, otherwise appends (Python `d[k] = v`).  All maps
built by the embedded code have pairwise-distinct keys, so `lookup`
agrees with Python dictionary access.
-/

def lookup {α : Type} : List (String × α) → String → Option α
  | [], _ => none
  | (k', v) :: rest, k => if k' = k then some v else lookup rest k

def upd {α : Type} : List (String × α) → String → α → List (String × α)
  | [], k, v => [(k, v)]
  | (k', v') :: rest, k, v =>
      if k' = k then (k, v) :: rest else (k', v') :: upd rest k v

/-! ## Kernel-reducible rational arithmetic

Batteries marks `Rat.add`, `Rat.sub`, `Rat.mul` and `Rat.inv`
`@[irreducible]`, so terms built from them do not evaluate by `rfl` or
`decide`.  The embedded code therefore uses the following equivalent
operations, defined directly through `mkRat`; `qadd_eq`, `qsub_eq`,
`qmul_eq`, `qdiv_eq` and `qabs_eq` below prove they agree with the
standard rational arithmetic (`qdiv _ 0 = 0`, matching `x / 0 = 0`;
every division in the embedded code is guarded anyway).
-/

def qadd (a b : ℚ) : ℚ := mkRat (a.num * b.den + b.num * a.den) (a.den * b.den)

def qmul (a b : ℚ) : ℚ := mkRat (a.num * b.num) (a.den * b.den)

def qsub (a b : ℚ) : ℚ := qadd a (mkRat (-b.num) b.den)

def qdiv (a b : ℚ) : ℚ := mkRat (a.num * b.den * b.num.sign) (a.den * b.num.natAbs)

def qabs (a : ℚ) : ℚ := if a < 0 then mkRat (-a.num) a.den else a

def qpow10 (n : ℕ) : ℚ := mkRat ((10 : ℤ) ^ n) 1

/-! ## Python string / number primitives -/

/-- Model of Python `str.strip()`: drop leading and trailing whitespace.
(Defined structurally on the character list so that it reduces in the
kernel, unlike `String.trim`.) -/
def pyStrip (s : String) : String :=
  ⟨((s.toList.dropWhile Char.isWhitespace).reverse.dropWhile
      Char.isWhitespace).reverse⟩

/-- Model of Python `str.lower()` (structural, unlike `String.toLower`). -/
def lowerStr (s : String) : String :=
  ⟨s.toList.map Char.toLower⟩

/-- Model of Python `str.strip("()")`: drop leading and trailing characters
belonging to the given set. -/
def stripChars (s : String) (cs : List Char) : String :=
  ⟨((s.toList.dropWhile (· ∈ cs)).reverse.dropWhile (· ∈ cs)).reverse⟩

/-- Model of Python `str.replace(c, "")` for each character in `cs`. -/
def removeChars (s : String) (cs : List Char) : String :=
  ⟨s.toList.filter (· ∉ cs)⟩

/-- Numeric value of a list of decimal digit characters. -/
def digitsVal (cs : List Char) : ℕ :=
  cs.foldl (fun a c => 10 * a + (c.toNat - '0'.toNat)) 0

/-- Model of Python `float(t)` on the decimal sublanguage actually produced
by the extractor (optional sign, digits, at most one decimal point).
Exotic inputs Python would also accept (exponents, `inf`, `nan`,
underscores) are outside the documents' numeric facts and map to `none`. -/
def pyFloat (s : String) : Option ℚ :=
  let cs := s.toList
  let (neg, body) :=
    match cs with
    | '-' :: t => (true, t)
    | '+' :: t => (false, t)
    | _ => (false, cs)
  if body.all (fun c => c.isDigit || c = '.') &&
      (body.count '.') ≤ 1 && body.any (·.isDigit) then
    let ip := body.takeWhile (· ≠ '.')
    let fp := (body.dropWhile (· ≠ '.')).drop 1
    let mag : ℚ := qadd (digitsVal ip : ℚ) (qdiv (digitsVal fp : ℚ) (qpow10 fp.length))
    some (if neg then -mag else mag)
  else
    none

/-- Model of Python `int(t)` on attribute strings (optional sign and
decimal digits, surrounding whitespace tolerated). -/
def pyInt (s : String) : Option ℤ :=
  let cs := (pyStrip s).toList
  let (neg, body) :=
    match cs with
    | '-' :: t => (true, t)
    | '+' :: t => (false, t)
    | _ => (false, cs)
  if body ≠ [] && body.all (·.isDigit) then
    some (if neg then -(digitsVal body : ℤ) else (digitsVal body : ℤ))
  else
    none

/-- Model of Python `needle in hay` substring containment. -/
def containsSub (needle : List Char) : List Char → Bool
  | [] => needle.isEmpty
  | c :: t => needle.isPrefixOf (c :: t) || containsSub needle t

/-! ## `tools/adk_pdf_tools.py`: the iXBRL fact scanner -/

/-- One `ix:nonFraction` tag, as read by `_extract_key_facts_from_ixbrl`:
its `name`, `contextref`, `decimals` and `unitref` attributes and its
(`strip=True`) text content. -/
structure IxFact where
  name : String
  contextref : Option String
  decimals : Option String
  unitref : Option String
  text : String
  deriving Repr, DecidableEq

/-- `_safe_parse_number` of `tools/adk_pdf_tools.py`: strip, treat
parentheses as negation, drop currency symbols and commas, parse. -/
def safe_parse_number (text : String) : Option ℚ :=
  let t := pyStrip text
  let isNeg := t.toList.head? = some '(' && t.toList.getLast? = some ')'
  let t := stripChars t ['(', ')']
  let t := removeChars t ['$', '€', '£']
  let t := pyStrip (removeChars t [','])
  match pyFloat t with
  | some n => some (if isNeg then -n else n)
  | none => none

/-- The `scale_decimals` computation of `_extract_key_facts_from_ixbrl`
(lines 511–528): `10^|d|` for negative parsed decimals, `1/10^d` for
positive, `1` for zero and for an absent or unparsable attribute. -/
def scale_decimals (attr : Option String) : ℚ :=
  match attr with
  | none => 1
  | some s =>
      match pyInt s with
      | none => 1
      | some d =>
          if d < 0 then qpow10 d.natAbs
          else if 0 < d then qdiv 1 (qpow10 d.toNat)
          else 1

/-- The `scale_unit` computation (lines 530–540), on the lower-cased unit
description. -/
def scale_unit (desc : String) : ℚ :=
  if containsSub "thousand".toList desc.toList then 1000
  else if containsSub "million".toList desc.toList then 1000000
  else if containsSub "billion".toList desc.toList then 1000000000
  else 1

/-- `unit_desc = (unit_map.get(unit_ref) or unit_ref or "").lower()`. -/
def unitDescOf (unitMap : List (String × String)) (unitref : Option String) : String :=
  let uref := unitref.getD ""
  lowerStr
    (match lookup unitMap uref with
     | some v => if v = "" then uref else v
     | none => uref)

/-- Processing of a single `ix:nonFraction` tag in the scan loop of
`_extract_key_facts_from_ixbrl`: skip on missing name / context /
unresolvable period / empty text / unparsable number, otherwise yield the
concept, resolved period and fully scaled value. -/
def processFact (ctxMap unitMap : List (String × String)) (f : IxFact) :
    Option (String × String × ℚ) :=
  if f.name = "" then none else
  match f.contextref with
  | none => none
  | some cr =>
      if cr = "" then none else
      match lookup ctxMap cr with
      | none => none
      | some pe =>
          if pe = "" then none else
          if pyStrip f.text = "" then none else
          match safe_parse_number (pyStrip f.text) with
          | none => none
          | some n =>
              some (f.name, pe,
                qmul (qmul n (scale_decimals f.decimals))
                  (scale_unit (unitDescOf unitMap f.unitref)))

/-- The scan loop: build `raw_values_by_concept`, overwriting on duplicate
(concept, period) pairs exactly as `concept_dict[period_end] = scaled_value`
does. -/
def scanStep (ctxMap unitMap : List (String × String))
    (raw : List (String × List (String × ℚ))) (f : IxFact) :
    List (String × List (String × ℚ)) :=
  match processFact ctxMap unitMap f with
  | none => raw
  | some (c, p, v) => upd raw c (upd ((lookup raw c).getD []) p v)

def scanFacts (ctxMap unitMap : List (String × String)) (facts : List IxFact) :
    List (String × List (String × ℚ)) :=
  facts.foldl (scanStep ctxMap unitMap) []

/-- Nested access `raw_values_by_concept[c][p]`. -/
def lookup2 (raw : List (String × List (String × ℚ))) (c p : String) :
    Option ℚ :=
  (lookup raw c).bind (fun pm => lookup pm p)

/-- The `concept_map` table of `_extract_key_facts_from_ixbrl`. -/
def concept_map : List (String × List String) :=
  [ ("revenue",
      [ "us-gaap:Revenues",
        "us-gaap:SalesRevenueNet",
        "us-gaap:RevenueFromContractWithCustomerExcludingAssessedTax" ]),
    ("total_current_assets", ["us-gaap:AssetsCurrent"]),
    ("total_assets", ["us-gaap:Assets"]),
    ("net_income", ["us-gaap:NetIncomeLoss", "us-gaap:ProfitLoss"]),
    ("operating_cash_flow",
      ["us-gaap:NetCashProvidedByUsedInOperatingActivities"]),
    ("capital_expenditures",
      [ "us-gaap:PaymentsToAcquirePropertyPlantAndEquipment",
        "us-gaap:CapitalExpendituresIncurredButNotYetPaid" ]),
    ("operating_income", ["us-gaap:OperatingIncomeLoss"]),
    ("depreciation_amortization",
      [ "us-gaap:DepreciationDepletionAndAmortization",
        "us-gaap:DepreciationAndAmortization" ]),
    ("weighted_avg_shares_diluted",
      [ "us-gaap:WeightedAverageNumberOfDilutedSharesOutstanding",
        "us-gaap:WeightedAverageNumberOfShareOutstandingDiluted" ]),
    ("weighted_avg_shares_basic",
      ["us-gaap:WeightedAverageNumberOfSharesOutstandingBasic"]),
    ("common_shares_outstanding",
      [ "us-gaap:CommonStockSharesOutstanding",
        "us-gaap:EntityCommonStockSharesOutstanding" ]),
    ("shares_outstanding",
      [ "us-gaap:CommonStockSharesOutstanding",
        "us-gaap:EntityCommonStockSharesOutstanding",
        "us-gaap:WeightedAverageNumberOfDilutedSharesOutstanding",
        "us-gaap:WeightedAverageNumberOfSharesOutstandingBasic" ]) ]

/-- The merge step of `_extract_key_facts_from_ixbrl` (lines 562–574): walk
the concept list in order, copying every period of each concept into
`merged` — the source comment reads "if overlapping, last concept in list
wins". -/
def mergeStep (raw : List (String × List (String × ℚ)))
    (merged : List (String × ℚ)) (c : String) : List (String × ℚ) :=
  match lookup raw c with
  | none => merged
  | some pm =>
      if pm = [] then merged
      else pm.foldl (fun m pv => upd m pv.1 pv.2) merged

def mergeConcepts (raw : List (String × List (String × ℚ)))
    (concepts : List String) : List (String × ℚ) :=
  concepts.foldl (mergeStep raw) []

/-- `_extract_key_facts_from_ixbrl`: scan, then merge per friendly key,
keeping only keys with at least one period. -/
def extract_key_facts_from_ixbrl (ctxMap unitMap : List (String × String))
    (facts : List IxFact) : List (String × List (String × ℚ)) :=
  let raw := scanFacts ctxMap unitMap facts
  concept_map.foldl
    (fun result kc =>
      let merged := mergeConcepts raw kc.2
      if merged = [] then result else result ++ [(kc.1, merged)])
    []

/-- The claim's wording of the decimal scale: `10^|decimals|` when the
attribute parses to a negative integer, `1/10^decimals` when it parses to a
non-negative one, and `1` when it is absent or unparsable. -/
def decimalScaleSpec (attr : Option String) : ℚ :=
  match attr.bind pyInt with
  | some d => if d < 0 then (10 : ℚ) ^ d.natAbs else 1 / (10 : ℚ) ^ d.toNat
  | none => 1

/-! ## `agents/extraction_agent_adk.py`: the revenue reconciler

`parse_10k_html_ixbrl` returns only `company_name` / `ticker` / `symbol` /
`cik` / `facts`, so in this pipeline `_fix_revenue_from_ixbrl` never finds
an `ixbrl_facts` / `raw_ixbrl_facts` / `facts_list` key and always takes
its fallback branch, `_extract_revenue_direct_from_file`.  That fallback
pass is embedded here.
-/

/-- The reconciler's `REVENUE_CONCEPTS` set (note: it omits
`SalesRevenueNet`, which the generic scanner accepts). -/
def REVENUE_CONCEPTS : List String :=
  [ "us-gaap:Revenues",
    "us-gaap:RevenueFromContractWithCustomerExcludingAssessedTax" ]

/-- One fact of the reconciler's scan loop
(`_extract_revenue_direct_from_file`, lines 88–125): concept filter,
context resolution, comma-stripped parse, and `decimals < 0` up-scaling
(malformed decimals keep the raw value). -/
def reconcilerFactValue (ctxMap : List (String × String)) (f : IxFact) :
    Option (String × ℚ) :=
  if pyStrip f.name ∈ REVENUE_CONCEPTS then
    match f.contextref with
    | none => none
    | some cr =>
        if cr = "" then none else
        match lookup ctxMap cr with
        | none => none
        | some pe =>
            if pe = "" then none else
            if removeChars (pyStrip f.text) [','] = "" then none else
            match pyFloat (removeChars (pyStrip f.text) [',']) with
            | none => none
            | some rawVal =>
                some (pe,
                  match f.decimals with
                  | none => rawVal
                  | some a =>
                      match pyInt a with
                      | none => rawVal
                      | some d =>
                          if d < 0 then qmul rawVal (qpow10 d.natAbs)
                          else rawVal)
  else none

/-- "Prefer the largest revenue value if multiple facts for same period". -/
def reconcilerStep (ctxMap : List (String × String))
    (m : List (String × ℚ)) (f : IxFact) : List (String × ℚ) :=
  match reconcilerFactValue ctxMap f with
  | none => m
  | some (p, v) =>
      match lookup m p with
      | none => upd m p v
      | some prev => if prev < v then upd m p v else m

/-- `_extract_revenue_direct_from_file`: fold the scan loop over all
`ix:nonFraction` facts of the raw document. -/
def extract_revenue_direct (ctxMap : List (String × String))
    (fs : List IxFact) : List (String × ℚ) :=
  fs.foldl (reconcilerStep ctxMap) []

/-- `_fix_revenue_from_ixbrl` (fallback branch): if the narrow pass found
at least one period, replace `facts["revenue"]` wholesale; otherwise leave
`facts` untouched. -/
def fix_revenue_from_ixbrl (ctxMap : List (String × String))
    (fs : List IxFact) (facts : List (String × List (String × ℚ))) :
    List (String × List (String × ℚ)) :=
  if extract_revenue_direct ctxMap fs = [] then facts
  else upd facts "revenue" (extract_revenue_direct ctxMap fs)

/-- Spec-side list of the reconciler pass's scaled values for a period
(in scan order), used to state the maximum property. -/
def reconcilerValsAt (ctxMap : List (String × String)) (fs : List IxFact)
    (p : String) : List ℚ :=
  fs.filterMap
    (fun f =>
      match reconcilerFactValue ctxMap f with
      | some pv => if pv.1 = p then some pv.2 else none
      | none => none)

/-- Spec-side incremental maximum (strictly-greater update, i.e. first
maximal element wins ties — value-wise the maximum). -/
def maxFold (o : Option ℚ) (l : List ℚ) : Option ℚ :=
  l.foldl
    (fun acc v =>
      match acc with
      | none => some v
      | some a => if a < v then some v else some a)
    o

/-! ## `agents/financial_agent_adk.py`: the Metrics Computation Engine -/

/-- `facts.get(key) or {}` followed by `.get(period)` (an empty per-metric
dict and a missing one behave identically). -/
def get_value (facts : List (String × List (String × ℚ))) (metric p : String) :
    Option ℚ :=
  match lookup facts metric with
  | none => none
  | some m => lookup m p

/-- `_get_any_value`: first metric name with a non-None value. -/
def get_any_value (facts : List (String × List (String × ℚ)))
    (names : List String) (p : String) : Option ℚ :=
  match names with
  | [] => none
  | n :: rest =>
      match get_value facts n p with
      | some v => some v
      | none => get_any_value facts rest p

/-- `_safe_growth` of `agents/financial_agent_adk.py`:
`(curr - prev) / |prev|`, `None` on a missing operand or a zero base. -/
def safe_growth (curr prev : Option ℚ) : Option ℚ :=
  match curr, prev with
  | some c, some p => if p = 0 then none else some (qdiv (qsub c p) (qabs p))
  | _, _ => none

/-- The per-period metrics record built by `FinancialAgent._run_async_impl`
(growth keys are written only when a previous period exists; an unwritten
key and an explicit `None` are both `none` here). -/
structure AgentMetrics where
  revenue : Option ℚ
  net_income : Option ℚ
  operating_cash_flow : Option ℚ
  capital_expenditures : Option ℚ
  operating_income : Option ℚ
  depreciation_amortization : Option ℚ
  ebitda : Option ℚ
  ebitda_margin : Option ℚ
  net_margin : Option ℚ
  fcf : Option ℚ
  fcf_margin : Option ℚ
  revenue_growth : Option ℚ
  net_income_growth : Option ℚ
  fcf_growth : Option ℚ
  ebitda_growth : Option ℚ
  deriving Repr, DecidableEq

/-- One iteration of the FinancialAgent period loop (lines 60–134):
EBITDA preference chain, FCF, margins guarded by
`if revenue and revenue != 0`, growths against the previous period's
metrics via `_safe_growth`. -/
def agentPeriodMetrics (facts : List (String × List (String × ℚ)))
    (p : String) (prev : Option AgentMetrics) : AgentMetrics :=
  let revenue := get_value facts "revenue" p
  let net_income := get_value facts "net_income" p
  let ocf := get_value facts "operating_cash_flow" p
  let capex := get_value facts "capital_expenditures" p
  let operating_income := get_value facts "operating_income" p
  let d_and_a := get_value facts "depreciation_amortization" p
  let ebitda : Option ℚ :=
    match operating_income, d_and_a with
    | some o, some d => some (qadd o d)
    | some o, none => some o
    | none, some d =>
        match net_income with
        | some n => some (qadd n d)
        | none => net_income
    | none, none => net_income
  let fcf : Option ℚ :=
    match ocf, capex with
    | some o, some c => some (qsub o c)
    | _, _ => none
  let rguard : Option ℚ :=
    match revenue with
    | some r => if r = 0 then none else some r
    | none => none
  let ebitda_margin : Option ℚ :=
    match rguard, ebitda with
    | some r, some e => some (qdiv e r)
    | _, _ => none
  let net_margin : Option ℚ :=
    match rguard, net_income with
    | some r, some n => some (qdiv n r)
    | _, _ => none
  let fcf_margin : Option ℚ :=
    match rguard, fcf with
    | some r, some f => some (qdiv f r)
    | _, _ => none
  { revenue := revenue
    net_income := net_income
    operating_cash_flow := ocf
    capital_expenditures := capex
    operating_income := operating_income
    depreciation_amortization := d_and_a
    ebitda := ebitda
    ebitda_margin := ebitda_margin
    net_margin := net_margin
    fcf := fcf
    fcf_margin := fcf_margin
    revenue_growth :=
      match prev with
      | none => none
      | some pm => safe_growth revenue pm.revenue
    net_income_growth :=
      match prev with
      | none => none
      | some pm => safe_growth net_income pm.net_income
    fcf_growth :=
      match prev with
      | none => none
      | some pm => safe_growth fcf pm.fcf
    ebitda_growth :=
      match prev with
      | none => none
      | some pm => safe_growth ebitda pm.ebitda }

/-- The FinancialAgent period loop, threading each period's metrics record
as the next period's `prev_metrics`. -/
def financial_metrics_list (facts : List (String × List (String × ℚ))) :
    List String → Option AgentMetrics → List (String × AgentMetrics)
  | [], _ => []
  | p :: rest, prev =>
      let m := agentPeriodMetrics facts p prev
      (p, m) :: financial_metrics_list facts rest (some m)

/-- `FinancialAgent._run_async_impl` up to its `state_delta`: raises
(`ValueError`) when `available_periods` is missing or empty, otherwise
computes the per-period metrics in the periods' given (chronologically
sorted upstream) order. -/
def financialAgentRun (facts : List (String × List (String × ℚ)))
    (periods : List String) :
    Except String (List (String × AgentMetrics)) :=
  if periods = [] then
    Except.error "FinancialAgent: 'available_periods' missing or empty"
  else
    Except.ok (financial_metrics_list facts periods none)

/-! ## `tools/financial_calcs.py` -/

/-- `safe_div`: returns 0 — not an absent value and not an error — when
the denominator is zero. -/
def safe_div (a b : ℚ) : ℚ := if b = 0 then 0 else qdiv a b

/-- The EBITDA accumulation of `_compute_metrics_for_period` (lines
213–220): start from net income and add interest, income tax and D&A, each
only when present. -/
def calcs_ebitda (n : ℚ) (interest income_tax d_and_a : Option ℚ) : ℚ :=
  let e1 := match interest with | some i => qadd n i | none => n
  let e2 := match income_tax with | some t => qadd e1 t | none => e1
  match d_and_a with | some d => qadd e2 d | none => e2

/-- `_compute_metrics_for_period`, with the `result` dict written in
source order. -/
def compute_metrics_for_period (facts : List (String × List (String × ℚ)))
    (p : String) : List (String × ℚ) :=
  let revenue := get_any_value facts ["net_sales", "revenue"] p
  let net_income := get_value facts "net_income" p
  let op_cf := get_value facts "operating_cash_flow" p
  let capex := get_value facts "capital_expenditures" p
  let cost_of_sales := get_value facts "cost_of_sales" p
  let operating_income := get_value facts "operating_income" p
  let interest := get_any_value facts
    ["interest_expense", "interest_and_other_expense", "interest_and_other"] p
  let income_tax := get_any_value facts
    ["income_tax_expense", "provision_for_income_taxes"] p
  let d_and_a := get_any_value facts
    ["depreciation_and_amortization", "depreciation_amortization"] p
  (match revenue with | some r => [("revenue", r)] | none => []) ++
  (match net_income with | some n => [("net_income", n)] | none => []) ++
  (match op_cf with | some v => [("operating_cash_flow", v)] | none => []) ++
  (match capex with | some v => [("capital_expenditures", v)] | none => []) ++
  (match revenue, cost_of_sales with
   | some r, some c =>
      [("gross_profit", qsub r c), ("gross_margin", safe_div (qsub r c) r)]
   | _, _ => []) ++
  (match revenue, operating_income with
   | some r, some oi => [("operating_income", oi), ("operating_margin", safe_div oi r)]
   | _, _ => []) ++
  (match net_income with
   | some n =>
      [("ebitda", calcs_ebitda n interest income_tax d_and_a)] ++
        (match revenue with
         | some r =>
            [("ebitda_margin",
              safe_div (calcs_ebitda n interest income_tax d_and_a) r)]
         | none => [])
   | none => []) ++
  (match revenue, net_income with
   | some r, some n => [("net_margin", safe_div n r)]
   | _, _ => []) ++
  (match op_cf, capex with
   | some o, some c =>
      [("fcf", qsub o c)] ++
        (match revenue with
         | some r => [("fcf_margin", safe_div (qsub o c) r)]
         | none => [])
   | _, _ => [])

/-- The `metrics_to_track` table of `_compute_yoy_growth`. -/
def metrics_to_track : List (String × String) :=
  [ ("revenue", "revenue_growth"),
    ("net_income", "net_income_growth"),
    ("fcf", "fcf_growth"),
    ("ebitda", "ebitda_growth") ]

/-- Lexicographic (code-point) comparison of character lists — Python's
`<` on strings.  (Lean's `String` order is the same relation, but its
`String.ltb` does not reduce in the kernel.) -/
def listLt : List Char → List Char → Bool
  | [], [] => false
  | [], _ :: _ => true
  | _ :: _, [] => false
  | a :: as, b :: bs => if a < b then true else if b < a then false else listLt as bs

def strLt (a b : String) : Bool := listLt a.toList b.toList

/-- Sorted insertion for `sortedPeriods` (kept strictly-less-first so the
result is ascending; equal keys are identical strings, so stability is
moot). -/
def insertS (x : String) : List String → List String
  | [] => [x]
  | y :: t => if strLt x y then x :: y :: t else y :: insertS x t

/-- `sorted(periods)`: ascending lexicographic order, as Python sorts
strings (modelled by structural insertion sort so that it evaluates in
the kernel; `List.mergeSort` is well-founded recursion and does not). -/
def sortedPeriods (ps : List String) : List String :=
  ps.foldr insertS []

/-- Consecutive (previous, current) pairs of the sorted period list —
the `idx == 0` skip plus `sorted_periods[idx - 1]` lookback. -/
def yoyAdjacent : List String → List (String × String)
  | [] => []
  | [_] => []
  | a :: b :: rest => (a, b) :: yoyAdjacent (b :: rest)

/-- One iteration of the inner loop of `_compute_yoy_growth`: skip when
either value is missing or the base is zero, else store
`(current - previous) / previous` (signed denominator!). -/
def growthStep (per_period : List (String × List (String × ℚ)))
    (metric : String) (gm : List (String × ℚ)) (pr : String × String) :
    List (String × ℚ) :=
  match lookup2 per_period pr.2 metric, lookup2 per_period pr.1 metric with
  | some c, some pv => if pv = 0 then gm else upd gm pr.2 (qdiv (qsub c pv) pv)
  | _, _ => gm

/-- The inner loop of `_compute_yoy_growth` for one tracked metric. -/
def growth_for_metric (per_period : List (String × List (String × ℚ)))
    (sp : List String) (metric : String) : List (String × ℚ) :=
  (yoyAdjacent sp).foldl (growthStep per_period metric) []

/-- `_compute_yoy_growth`. -/
def compute_yoy_growth (per_period : List (String × List (String × ℚ)))
    (periods : List String) : List (String × List (String × ℚ)) :=
  metrics_to_track.map
    (fun mt => (mt.2, growth_for_metric per_period (sortedPeriods periods) mt.1))

/-- `_collect_all_periods` (a Python `set`; order is irrelevant because
the caller sorts). -/
def collect_all_periods (facts : List (String × List (String × ℚ))) :
    List String :=
  (facts.foldl (fun acc kv => acc ++ kv.2.map Prod.fst) []).dedup

structure CoreMetrics where
  periods : List String
  per_period : List (String × List (String × ℚ))
  yoy : List (String × List (String × ℚ))
  deriving Repr, DecidableEq

/-- `compute_core_metrics`. -/
def compute_core_metrics (facts : List (String × List (String × ℚ))) :
    CoreMetrics :=
  let periods := sortedPeriods (collect_all_periods facts)
  let per_period := periods.map (fun p => (p, compute_metrics_for_period facts p))
  { periods := periods
    per_period := per_period
    yoy := compute_yoy_growth per_period periods }

/-! ## `agents/valuation_agent_adk.py` -/

/-- The pieces of `session.state` that `ValuationAgent._run_async_impl`
reads (`memo_latest` models the `memo_financials["latest_metrics"]`
fallback; `current_price` the `live_quote["current_price"]` scalar). -/
structure ValState where
  available_periods : List String
  key_period : Option String
  financial_metrics : List (String × AgentMetrics)
  memo_latest : Option AgentMetrics
  financials_raw : List (String × List (String × ℚ))
  current_price : Option ℚ

/-- The `valuation_metrics` record (the `fcf_yield_pct` display string is
not modelled). -/
structure ValuationMetrics where
  current_price : Option ℚ
  revenue : Option ℚ
  shares_raw : Option ℚ
  shares_source : Option String
  shares : Option ℚ
  market_cap : Option ℚ
  market_cap_millions : Option ℚ
  pe : Option ℚ
  fcf_yield : Option ℚ
  key_period : Option String
  deriving Repr, DecidableEq

/-- The all-`None` record emitted on the no-period early return. -/
def noneValuation : ValuationMetrics :=
  { current_price := none, revenue := none, shares_raw := none,
    shares_source := none, shares := none, market_cap := none,
    market_cap_millions := none, pe := none, fcf_yield := none,
    key_period := none }

/-- `if net_income: pe = market_cap / net_income` — pe is computed only
when net income is truthy (present and non-zero). -/
def val_pe (market_cap net_income : Option ℚ) : Option ℚ :=
  match market_cap, net_income with
  | some mc, some n => if n = 0 then none else some (qdiv mc n)
  | _, _ => none

/-- `if fcf and market_cap: fcf_yield = fcf / market_cap` — both operands
must be truthy (present and non-zero). -/
def val_fcf_yield (market_cap fcf : Option ℚ) : Option ℚ :=
  match market_cap, fcf with
  | some mc, some f =>
      if f = 0 then none else if mc = 0 then none else some (qdiv f mc)
  | _, _ => none

def share_keys_order : List String :=
  [ "common_shares_outstanding", "shares_outstanding",
    "weighted_avg_shares_diluted", "weighted_avg_shares_basic" ]

/-- The share-resolution loop: first key in `share_keys_order` with a
value for the key period. -/
def resolveShares (facts : List (String × List (String × ℚ)))
    (kp : String) : List String → Option (ℚ × String)
  | [] => none
  | k :: rest =>
      match get_value facts k kp with
      | some v => some (v, k)
      | none => resolveShares facts kp rest

/-- `ValuationAgent._run_async_impl`.  With no key period and no available
periods it yields the explicit all-`None` snapshot and returns — it does
NOT raise; `Except.ok` throughout records exactly that. -/
def valuationAgentRun (st : ValState) : Except String ValuationMetrics :=
  let key1 : Option String :=
    match st.key_period with
    | some k => some k
    | none => st.available_periods.getLast?
  match key1 with
  | none => Except.ok noneValuation
  | some kp =>
      let metrics : Option AgentMetrics :=
        match lookup st.financial_metrics kp with
        | some m => some m
        | none => st.memo_latest
      let revenue := metrics.bind (·.revenue)
      let net_income := metrics.bind (·.net_income)
      let fcf := metrics.bind (·.fcf)
      let shares := resolveShares st.financials_raw kp share_keys_order
      let market_cap : Option ℚ :=
        match st.current_price, shares with
        | some pr, some s => some (qmul pr s.1)
        | _, _ => none
      let pe : Option ℚ := val_pe market_cap net_income
      let fcf_yield : Option ℚ := val_fcf_yield market_cap fcf
      Except.ok
        { current_price := st.current_price
          revenue := revenue
          shares_raw := shares.map (·.1)
          shares_source := shares.map (·.2)
          shares := shares.map (·.1)
          market_cap := market_cap
          market_cap_millions := market_cap.map (fun mc => qdiv mc 1000000)
          pe := pe
          fcf_yield := fcf_yield
          key_period := some kp }

/-- The claim's wording of the EBITDA preference chain:
`operating_income + depreciation_and_amortization` when both are present,
else `operating_income`, else `net_income + depreciation_and_amortization`
when both are present, else `net_income`. -/
def ebitdaChainSpec (oi da ni : Option ℚ) : Option ℚ :=
  match oi, da with
  | some o, some d => some (o + d)
  | some o, none => some o
  | none, some d =>
      match ni with
      | some n => some (n + d)
      | none => none
  | none, none => ni

/-! ## `tools/adk_text_tools.py`: the Section Map Builder

The HTML-to-text flattening (`soup.get_text`) is out of scope; the
embedding starts from the flattened `full_text`, which is what
`_find_item_headings` and the section slicing operate on.
-/

/-- The ASCII characters of the regex class `\s`. -/
def regexWs (c : Char) : Bool :=
  c = ' ' || c = '\t' || c = '\n' || c = '\r' || c = '\x0c' || c = '\x0b'

/-- Attempt to match the pattern `(item\s+(\d+[a]?)\.\s*[^\n]{0,120})`
(IGNORECASE) at the head of `cs`.  Returns the match length and the
captured section number (group 2, original case).  All quantifiers here
are greedy and the pattern is backtrack-free: the maximal digit run, the
optional letter `a`/`A`, the literal dot, the maximal whitespace run, then
at most 120 non-newline characters. -/
def matchItemAt (cs : List Char) : Option (ℕ × String) :=
  match cs with
  | c1 :: c2 :: c3 :: c4 :: rest =>
      if c1.toLower = 'i' && c2.toLower = 't' && c3.toLower = 'e' &&
          c4.toLower = 'm' then
        let wsN := (rest.takeWhile regexWs).length
        if wsN = 0 then none else
        let afterWs := rest.drop wsN
        let digits := afterWs.takeWhile Char.isDigit
        if digits = [] then none else
        let afterD := afterWs.drop digits.length
        let letter : List Char :=
          match afterD with
          | c :: _ => if c = 'a' || c = 'A' then [c] else []
          | [] => []
        match afterD.drop letter.length with
        | '.' :: afterDot =>
            let ws2 := (afterDot.takeWhile regexWs).length
            let tail120 := ((afterDot.drop ws2).takeWhile (· ≠ '\n')).take 120
            some (4 + wsN + digits.length + letter.length + 1 + ws2 +
                tail120.length,
              ⟨digits ++ letter⟩)
        | _ => none
      else none
  | _ => none

/-- One detected heading (`"end"` is a Lean keyword, so the match's end
offset is called `stop`). -/
structure Heading where
  start : ℕ
  stop : ℕ
  number : String
  heading : String
  id : String
  deriving Repr, DecidableEq

/-- `re.finditer` over the text: try a match at each position, emit it and
resume after its end (matches are non-overlapping and in document order,
so the source's sort-by-start is the identity).  `fuel` is the remaining
text length; every step consumes at least one character. -/
def scanHeadings : ℕ → List Char → ℕ → List Heading
  | 0, _, _ => []
  | _ + 1, [], _ => []
  | fuel + 1, c :: rest, pos =>
      match matchItemAt (c :: rest) with
      | some (len, num) =>
          { start := pos, stop := pos + len, number := num,
            heading := pyStrip ⟨(c :: rest).take len⟩,
            id := "item_" ++ lowerStr num } ::
            scanHeadings fuel ((c :: rest).drop len) (pos + len)
      | none => scanHeadings fuel rest (pos + 1)

/-- `_find_item_headings`. -/
def find_item_headings (full : List Char) : List Heading :=
  scanHeadings full.length full 0

/-- One chunk of `build_10k_section_map`. -/
structure Chunk where
  id : String
  label : String
  number : String
  text : String
  deriving Repr, DecidableEq

/-- The section slicing: each section's text runs from its heading's start
to the next heading's start (end of document for the last), then is
stripped. -/
def chunksOf (full : List Char) : List Heading → List Chunk
  | [] => []
  | [h] => [⟨h.id, h.heading, h.number, pyStrip ⟨full.drop h.start⟩⟩]
  | h :: h2 :: t =>
      ⟨h.id, h.heading, h.number,
        pyStrip ⟨(full.drop h.start).take (h2.start - h.start)⟩⟩ ::
        chunksOf full (h2 :: t)

/-- Merge duplicate section ids, keeping the strictly longer text. -/
def sections_by_id (chunks : List Chunk) : List (String × Chunk) :=
  chunks.foldl
    (fun m c =>
      match lookup m c.id with
      | none => upd m c.id c
      | some c0 => if c0.text.length < c.text.length then upd m c.id c else m)
    []

/-- One entry of the `sections_index`. -/
structure SectionEntry where
  id : String
  label : String
  section_type : String
  part : String
  page_estimate : Option ℕ
  approx_char_len : Option ℕ
  present_in_document : Bool
  deriving Repr, DecidableEq

/-- The `_entry` helper of `_build_sections_index`: overlay a detected
chunk (label when non-empty, text length when non-empty text, presence)
onto the static defaults. -/
def sectionEntry (sbi : List (String × Chunk)) (sec_id default_label
    section_type part : String) (page : Option ℕ) : SectionEntry :=
  match lookup sbi sec_id with
  | some c =>
      { id := sec_id,
        label := if c.label = "" then default_label else c.label,
        section_type := section_type, part := part, page_estimate := page,
        approx_char_len := if c.text = "" then none else some c.text.length,
        present_in_document := true }
  | none =>
      { id := sec_id, label := default_label, section_type := section_type,
        part := part, page_estimate := page, approx_char_len := none,
        present_in_document := false }

structure CatEntry where
  id : String
  label : String
  section_type : String
  part : String
  page : Option ℕ
  deriving Repr, DecidableEq

/-- The static 10-K catalogue of `_build_sections_index` (labels copied
verbatim, including their mojibake). -/
def catalogue : List CatEntry :=
  [ ⟨"item_1", "Item 1. Business", "business", "PART I", some 3⟩,
    ⟨"item_1a", "Item 1A. Risk Factors", "risks", "PART I", some 9⟩,
    ⟨"item_1b", "Item 1B. Unresolved Staff Comments", "staff_comments",
      "PART I", some 28⟩,
    ⟨"item_1c", "Item 1C. Cybersecurity", "cybersecurity", "PART I",
      some 28⟩,
    ⟨"item_2", "Item 2. Properties", "properties", "PART I", some 29⟩,
    ⟨"item_3", "Item 3. Legal Proceedings", "legal", "PART I", some 51⟩,
    ⟨"item_4", "Item 4. Mine Safety Disclosures", "safety", "PART I",
      some 51⟩,
    ⟨"item_5",
      "Item 5. Market for the Registrantâ€™s Common Equity, Related Stockholder Matters and Issuer Purchases of Equity Securities",
      "equity_market", "PART II", some 53⟩,
    ⟨"item_6", "Item 6. [Reserved]", "reserved", "PART II", some 54⟩,
    ⟨"item_7",
      "Item 7. Managementâ€™s Discussion and Analysis of Financial Condition and Results of Operations",
      "mdna", "PART II", some 54⟩,
    ⟨"item_7a",
      "Item 7A. Quantitative and Qualitative Disclosures About Market Risk",
      "market_risk", "PART II", some 82⟩,
    ⟨"item_8", "Item 8. Financial Statements and Supplementary Data",
      "financials", "PART II", some 84⟩,
    ⟨"item_9",
      "Item 9. Changes in and Disagreements with Accountants on Accounting and Financial Disclosure",
      "accounting_changes", "PART II", some 137⟩,
    ⟨"item_9a", "Item 9A. Controls and Procedures", "controls", "PART II",
      some 137⟩,
    ⟨"item_9b", "Item 9B. Other Information", "other_info", "PART II",
      some 137⟩,
    ⟨"item_9c",
      "Item 9C. Disclosure Regarding Foreign Jurisdictions That Prevent Inspections",
      "foreign_disclosure", "PART II", some 137⟩,
    ⟨"item_10",
      "Item 10. Directors, Executive Officers and Corporate Governance",
      "directors_governance", "PART III", some 137⟩,
    ⟨"item_11", "Item 11. Executive Compensation", "compensation",
      "PART III", some 138⟩,
    ⟨"item_12",
      "Item 12. Security Ownership of Certain Beneficial Owners and Management and Related Stockholder Matters",
      "ownership", "PART III", some 138⟩,
    ⟨"item_13",
      "Item 13. Certain Relationships and Related Transactions, and Director Independence",
      "relationships", "PART III", some 138⟩,
    ⟨"item_14", "Item 14. Principal Accountant Fees and Services",
      "accountant_fees", "PART III", some 138⟩,
    ⟨"item_15", "Item 15. Exhibits and Financial Statement Schedules",
      "exhibits", "PART IV", some 138⟩,
    ⟨"item_16", "Item 16. Form 10-K Summary", "summary", "PART IV",
      some 144⟩ ]

def catalogueIds : List String := catalogue.map (·.id)

/-- The entry added for a detected section id outside the catalogue. -/
def otherEntry (sid : String) (c : Chunk) : SectionEntry :=
  { id := sid, label := c.label, section_type := "other", part := "UNKNOWN",
    page_estimate := none,
    approx_char_len := if c.text = "" then none else some c.text.length,
    present_in_document := true }

/-- `_build_sections_index`: the full static catalogue overlaid with the
detected sections, then every detected id outside the catalogue appended
as an `"other"` entry.  (`sections_by_id` has pairwise-distinct ids, so
checking `sid not in index` against the catalogue ids is exact.) -/
def build_sections_index (sbi : List (String × Chunk)) :
    List (String × SectionEntry) :=
  catalogue.map
    (fun e => (e.id, sectionEntry sbi e.id e.label e.section_type e.part e.page))
    ++ sbi.filterMap
      (fun sc =>
        if sc.1 ∈ catalogueIds then none else some (sc.1, otherEntry sc.1 sc.2))

structure SectionMap where
  full_text : String
  sections_by_id : List (String × Chunk)
  chunks : List Chunk
  sections_index : List (String × SectionEntry)
  deriving Repr, DecidableEq

/-- `build_10k_section_map` (from the flattened text onward): no headings
detected means everything empty; otherwise slice, merge duplicates, and
build the index. -/
def build_10k_section_map (full : String) : SectionMap :=
  if find_item_headings full.toList = [] then
    { full_text := full, sections_by_id := [], chunks := [],
      sections_index := [] }
  else
    { full_text := full
      sections_by_id := sections_by_id (chunksOf full.toList (find_item_headings full.toList))
      chunks := chunksOf full.toList (find_item_headings full.toList)
      sections_index :=
        build_sections_index
          (sections_by_id (chunksOf full.toList (find_item_headings full.toList))) }

/-! ## `agents/qa_agent_adk.py`: lexical fallback retrieval -/

/-- `[^a-z0-9\s]` complement test after lower-casing. -/
def isLowerAlnum (c : Char) : Bool :=
  c.isDigit || ('a' ≤ c && c ≤ 'z')

/-- `str.split()`: split on whitespace runs, dropping empty pieces. -/
def splitWsAux : List Char → List Char → List String
  | [], acc => if acc = [] then [] else [⟨acc.reverse⟩]
  | c :: t, acc =>
      if regexWs c then
        if acc = [] then splitWsAux t []
        else ⟨acc.reverse⟩ :: splitWsAux t []
      else splitWsAux t (c :: acc)

/-- `_normalize_text`: lower-case, replace every character outside
`[a-z0-9\s]` with a space, split into tokens. -/
def normalize_text (s : String) : List String :=
  splitWsAux
    ((lowerStr s).toList.map (fun c => if isLowerAlnum c || regexWs c then c else ' '))
    []

/-- A section as `_score_section_for_question` reads it: its
`label`/`title` and its `text` (the source tries `label` then `title`
then `""`; both are one string field here). -/
structure QASection where
  label : String
  text : String
  deriving Repr, DecidableEq

/-- The token set of a section: its label plus the first 2000 characters
of its text. -/
def section_tokens (sec : QASection) : Finset String :=
  (normalize_text (sec.label ++ " " ++ ⟨sec.text.toList.take 2000⟩)).toFinset

/-- `_score_section_for_question`:
`len(q ∩ s) / max(len(q), 1)`, and 0 outright when the section has no
tokens. -/
def score_section_for_question (question : String) (sec : QASection) : ℚ :=
  let qT := (normalize_text question).toFinset
  let sT := section_tokens sec
  if sT = ∅ then 0
  else qdiv ((qT ∩ sT).card : ℚ) ((max qT.card 1 : ℕ) : ℚ)

/-- The `score > 0` filter building `scored` (score first, id second, in
index order). -/
def scoredSections (question : String) (sections : List (String × QASection)) :
    List (ℚ × String) :=
  sections.filterMap
    (fun sm =>
      if 0 < score_section_for_question question sm.2 then
        some (score_section_for_question question sm.2, sm.1)
      else none)

/-- Stable descending insertion (equal scores keep their original order),
modelling `scored.sort(key=lambda x: x[0], reverse=True)`. -/
def insertDesc (x : ℚ × String) : List (ℚ × String) → List (ℚ × String)
  | [] => [x]
  | y :: t => if x.1 ≤ y.1 then y :: insertDesc x t else x :: y :: t

def sortDesc (l : List (ℚ × String)) : List (ℚ × String) :=
  l.foldl (fun acc x => insertDesc x acc) []

/-- The result loop: `break` before adding when the score drops below
`min_score`, `break` after adding when `top_k` entries are reached (so
`top_k = 0` still returns one entry, exactly as the Python does). -/
def selectTopK (min_score : ℚ) : List (ℚ × String) → ℕ → List String
  | [], _ => []
  | (sc, sid) :: rest, k =>
      if sc < min_score then []
      else if k ≤ 1 then [sid]
      else sid :: selectTopK min_score rest (k - 1)

/-- `_fallback_sections_for_question`, returning the selected section ids
in result order (the Python returns an insertion-ordered dict keyed by
these ids; the call site in `QaAgent` passes `top_k=5, min_score=0.15`). -/
def fallback_sections_for_question (question : String)
    (sections : List (String × QASection)) (top_k : ℕ) (min_score : ℚ) :
    List String :=
  selectTopK min_score (sortDesc (scoredSections question sections)) top_k

/-! ## Theorems -/

theorem mkRat_neg (b : ℚ) : mkRat (-b.num) b.den = -b := by
  rw [Rat.mkRat_eq_div]
  push_cast
  rw [neg_div, Rat.num_div_den]

theorem qadd_eq (a b : ℚ) : qadd a b = a + b := by
  have ha : (a.den : ℚ) ≠ 0 := by exact_mod_cast a.den_nz
  have hb : (b.den : ℚ) ≠ 0 := by exact_mod_cast b.den_nz
  rw [qadd, Rat.mkRat_eq_div]
  push_cast
  conv_rhs => rw [← Rat.num_div_den a, ← Rat.num_div_den b]
  rw [div_add_div _ _ ha hb]
  ring_nf

theorem qmul_eq (a b : ℚ) : qmul a b = a * b := by
  rw [qmul, Rat.mkRat_eq_div]
  push_cast
  conv_rhs => rw [← Rat.num_div_den a, ← Rat.num_div_den b]
  rw [div_mul_div_comm]

theorem qsub_eq (a b : ℚ) : qsub a b = a - b := by
  rw [qsub, mkRat_neg, qadd_eq, sub_eq_add_neg]

theorem qabs_eq (a : ℚ) : qabs a = |a| := by
  rw [qabs]
  split
  · rw [mkRat_neg, abs_of_neg (by assumption)]
  · rw [abs_of_nonneg (le_of_not_lt (by assumption))]

theorem div_eq_num_den (a b : ℚ) :
    a / b = ((a.num : ℚ) * (b.den : ℚ)) / ((a.den : ℚ) * (b.num : ℚ)) := by
  conv_lhs => rw [← Rat.num_div_den a, ← Rat.num_div_den b]
  rw [div_div_eq_mul_div, div_mul_eq_mul_div, div_div]

theorem qdiv_eq (a b : ℚ) : qdiv a b = a / b := by
  rcases lt_trichotomy b.num 0 with h | h | h
  · have hs : b.num.sign = -1 := Int.sign_eq_neg_one_of_neg h
    have hna : ((b.num.natAbs : ℕ) : ℚ) = -(b.num : ℚ) := by
      rw [Int.cast_natAbs (R := ℚ)]
      exact_mod_cast congrArg (fun z : ℤ => (z : ℚ)) (abs_of_neg h)
    rw [qdiv, Rat.mkRat_eq_div, hs, div_eq_num_den a b]
    push_cast [hna]
    rw [mul_neg_one, mul_neg, neg_div_neg_eq]
  · have hb0 : b = 0 := by
      rw [← Rat.num_div_den b, h]
      norm_num
    subst hb0
    simp [qdiv]
  · have hs : b.num.sign = 1 := Int.sign_eq_one_of_pos h
    have hna : ((b.num.natAbs : ℕ) : ℚ) = (b.num : ℚ) := by
      rw [Int.cast_natAbs (R := ℚ)]
      exact_mod_cast congrArg (fun z : ℤ => (z : ℚ)) (abs_of_pos h)
    rw [qdiv, Rat.mkRat_eq_div, hs, div_eq_num_den a b]
    push_cast [hna]
    rw [mul_one]

theorem qpow10_eq (n : ℕ) : qpow10 n = (10 : ℚ) ^ n := by
  rw [qpow10, Rat.mkRat_eq_div]
  push_cast
  simp


theorem lookup_upd_self {α : Type} (m : List (String × α)) (k : String) (v : α) :
    lookup (upd m k v) k = some v := by
  induction m with
  | nil => simp [upd, lookup]
  | cons h t ih =>
      obtain ⟨k', v'⟩ := h
      by_cases hk : k' = k
      · simp [upd, hk, lookup]
      · simp [upd, hk, lookup, ih]

theorem lookup_upd_ne {α : Type} (m : List (String × α)) (k q : String) (v : α)
    (h : q ≠ k) : lookup (upd m k v) q = lookup m q := by
  have hkq : k ≠ q := fun hh => h hh.symm
  induction m with
  | nil => simp [upd, lookup, hkq]
  | cons hd t ih =>
      obtain ⟨k', v'⟩ := hd
      by_cases hk : k' = k
      · subst hk
        simp [upd, lookup, hkq]
      · by_cases hq : k' = q
        · subst hq
          simp [upd, hk, lookup]
        · simp [upd, hk, lookup, hq, ih]

theorem keys_upd_subset {α : Type} (m : List (String × α)) (k : String) (v : α) :
    ∀ q, q ∈ (upd m k v).map Prod.fst → q ∈ m.map Prod.fst ∨ q = k := by
  induction m with
  | nil =>
      intro q hq
      simp [upd] at hq
      exact Or.inr hq
  | cons hd t ih =>
      obtain ⟨k', v'⟩ := hd
      intro q hq
      by_cases hk : k' = k
      · subst hk
        simp [upd] at hq
        rcases hq with hq | hq
        · exact Or.inr hq
        · exact Or.inl (by simp [hq])
      · simp [upd, hk] at hq
        rcases hq with hq | hq
        · exact Or.inl (by simp [hq])
        · rcases ih q (by simpa using hq) with h' | h'
          · exact Or.inl (by simp; right; simpa using h')
          · exact Or.inr h'

theorem upd_keys_nodup {α : Type} (m : List (String × α)) (k : String) (v : α)
    (h : (m.map Prod.fst).Nodup) : ((upd m k v).map Prod.fst).Nodup := by
  induction m with
  | nil => simp [upd]
  | cons hd t ih =>
      obtain ⟨k', v'⟩ := hd
      rw [List.map_cons, List.nodup_cons] at h
      by_cases hk : k' = k
      · subst hk
        simpa [upd, List.nodup_cons] using h
      · rw [show upd ((k', v') :: t) k v = (k', v') :: upd t k v by simp [upd, hk],
           List.map_cons, List.nodup_cons]
        refine ⟨fun hmem => ?_, ih h.2⟩
        rcases keys_upd_subset t k v k' hmem with h' | h'
        · exact h.1 h'
        · exact hk h'

theorem scale_decimals_eq_spec (attr : Option String) :
    scale_decimals attr = decimalScaleSpec attr := by
  cases attr with
  | none => rfl
  | some s =>
      simp only [scale_decimals, decimalScaleSpec, Option.bind]
      cases hp : pyInt s with
      | none => rfl
      | some d =>
          by_cases hneg : d < 0
          · simp [hneg, qpow10_eq]
          · by_cases hpos : 0 < d
            · simp [hneg, hpos, qdiv_eq, qpow10_eq]
            · have hd0 : d = 0 := le_antisymm (not_lt.mp hpos) (not_lt.mp hneg)
              subst hd0
              simp

theorem lookup_none_iff {α : Type} (m : List (String × α)) (k : String) :
    lookup m k = none ↔ ∀ pv ∈ m, pv.1 ≠ k := by
  induction m with
  | nil => simp [lookup]
  | cons hd t ih =>
      obtain ⟨k', v'⟩ := hd
      by_cases hk : k' = k
      · subst hk
        simp [lookup]
      · simp [lookup, hk, ih]

theorem foldUpd_lookup_notmem (pm : List (String × ℚ)) (m : List (String × ℚ))
    (p : String) (h : ∀ pv ∈ pm, pv.1 ≠ p) :
    lookup (pm.foldl (fun m pv => upd m pv.1 pv.2) m) p = lookup m p := by
  induction pm generalizing m with
  | nil => simp
  | cons hd t ih =>
      rw [List.foldl_cons, ih _ (fun pv hpv => h pv (by simp [hpv])),
        lookup_upd_ne _ _ _ _ (Ne.symm (h hd (by simp)))]

theorem foldUpd_lookup_mem (pm : List (String × ℚ)) (m : List (String × ℚ))
    (p : String) (v : ℚ) (hnd : (pm.map Prod.fst).Nodup)
    (h : lookup pm p = some v) :
    lookup (pm.foldl (fun m pv => upd m pv.1 pv.2) m) p = some v := by
  induction pm generalizing m with
  | nil => simp [lookup] at h
  | cons hd t ih =>
      obtain ⟨k1, v1⟩ := hd
      rw [List.map_cons, List.nodup_cons] at hnd
      by_cases hk : k1 = p
      · subst hk
        rw [lookup] at h
        simp at h
        subst h
        rw [List.foldl_cons]
        have hnot : ∀ pv ∈ t, pv.1 ≠ k1 := by
          intro pv hpv he
          exact hnd.1 (List.mem_map.mpr ⟨pv, hpv, he⟩)
        rw [foldUpd_lookup_notmem t _ _ hnot, lookup_upd_self]
      · rw [lookup] at h
        simp [hk] at h
        rw [List.foldl_cons]
        exact ih _ hnd.2 h

theorem scanStep_lookup2_self (ctxMap unitMap : List (String × String))
    (raw : List (String × List (String × ℚ))) (f : IxFact) (c p : String)
    (v : ℚ) (h : processFact ctxMap unitMap f = some (c, p, v)) :
    lookup2 (scanStep ctxMap unitMap raw f) c p = some v := by
  simp [scanStep, h, lookup2, lookup_upd_self]

theorem scanStep_lookup2_preserve (ctxMap unitMap : List (String × String))
    (raw : List (String × List (String × ℚ))) (f : IxFact) (c p : String)
    (h : ∀ v', processFact ctxMap unitMap f ≠ some (c, p, v')) :
    lookup2 (scanStep ctxMap unitMap raw f) c p = lookup2 raw c p := by
  cases hp : processFact ctxMap unitMap f with
  | none => simp [scanStep, hp]
  | some cpv =>
      obtain ⟨c', p', v'⟩ := cpv
      by_cases hc : c' = c
      · subst hc
        by_cases hpp : p' = p
        · subst hpp
          exact absurd hp (h v')
        · simp only [scanStep, hp, lookup2, lookup_upd_self, Option.bind]
          rw [lookup_upd_ne _ _ _ _ (Ne.symm hpp)]
          cases hl : lookup raw c' <;> simp [hl, lookup]
      · simp only [scanStep, hp, lookup2]
        rw [lookup_upd_ne _ _ _ _ (Ne.symm hc)]

theorem scan_fold_preserve (ctxMap unitMap : List (String × String))
    (fs : List IxFact) (raw : List (String × List (String × ℚ)))
    (c p : String)
    (h : ∀ g ∈ fs, ∀ v', processFact ctxMap unitMap g ≠ some (c, p, v')) :
    lookup2 (fs.foldl (scanStep ctxMap unitMap) raw) c p = lookup2 raw c p := by
  induction fs generalizing raw with
  | nil => simp
  | cons g t ih =>
      rw [List.foldl_cons, ih _ (fun g' hg' => h g' (by simp [hg'])),
        scanStep_lookup2_preserve _ _ _ _ _ _ (h g (by simp))]

theorem scanStep_values_nodup (ctxMap unitMap : List (String × String))
    (raw : List (String × List (String × ℚ))) (f : IxFact)
    (h : ∀ c pm, lookup raw c = some pm → (pm.map Prod.fst).Nodup) :
    ∀ c pm, lookup (scanStep ctxMap unitMap raw f) c = some pm →
      (pm.map Prod.fst).Nodup := by
  intro c pm hl
  cases hp : processFact ctxMap unitMap f with
  | none =>
      rw [scanStep, hp] at hl
      exact h c pm hl
  | some cpv =>
      obtain ⟨c0, p0, v0⟩ := cpv
      rw [scanStep, hp] at hl
      by_cases hc : c0 = c
      · subst hc
        rw [lookup_upd_self] at hl
        have hold : (((lookup raw c0).getD []).map Prod.fst).Nodup := by
          cases ho : lookup raw c0 with
          | none => simp
          | some pm0 => simpa using h c0 pm0 ho
        obtain rfl := Option.some.inj hl
        exact upd_keys_nodup _ _ _ hold
      · rw [lookup_upd_ne _ _ _ _ (Ne.symm hc)] at hl
        exact h c pm hl

theorem scanFacts_values_nodup (ctxMap unitMap : List (String × String))
    (fs : List IxFact) :
    ∀ c pm, lookup (scanFacts ctxMap unitMap fs) c = some pm →
      (pm.map Prod.fst).Nodup := by
  rw [scanFacts]
  have : ∀ (raw : List (String × List (String × ℚ))),
      (∀ c pm, lookup raw c = some pm → (pm.map Prod.fst).Nodup) →
      ∀ c pm, lookup (fs.foldl (scanStep ctxMap unitMap) raw) c = some pm →
        (pm.map Prod.fst).Nodup := by
    induction fs with
    | nil => intro raw h; simpa using h
    | cons g t ih =>
        intro raw h
        rw [List.foldl_cons]
        exact ih _ (scanStep_values_nodup ctxMap unitMap raw g h)
  exact this [] (by intro c pm h; simp [lookup] at h)

theorem merge_fold_preserve (raw : List (String × List (String × ℚ)))
    (L : List String) (acc : List (String × ℚ)) (p : String)
    (h : ∀ c' ∈ L, lookup2 raw c' p = none) :
    lookup (L.foldl (mergeStep raw) acc) p = lookup acc p := by
  induction L generalizing acc with
  | nil => simp
  | cons c' t ih =>
      rw [List.foldl_cons, ih _ (fun c'' hc'' => h c'' (by simp [hc'']))]
      have hc' := h c' (by simp)
      rw [lookup2] at hc'
      cases hl : lookup raw c' with
      | none => simp [mergeStep, hl]
      | some pm =>
          rw [hl] at hc'
          simp only [Option.some_bind] at hc'
          by_cases hpm : pm = []
          · simp [mergeStep, hl, hpm]
          · rw [mergeStep, hl]
            simp only [hpm, if_false]
            exact foldUpd_lookup_notmem pm acc p ((lookup_none_iff pm p).mp hc')

/-- Claim C2 counterexample: with the revenue concept list
[`Revenues`, `SalesRevenueNet`, …] in preference order, a `SalesRevenueNet`
fact (lower preference, value 20) overrides the `Revenues` fact (higher
preference, value 10) for the same period — the merged table holds 20, not
the claimed 10.  Likewise two duplicate `Revenues` facts (100 then 50) for
one period resolve to the last-scanned 50, not the claimed maximum 100. -/
theorem c2_counterexample :
    (lookup
        (mergeConcepts
          (scanFacts [("C1", "2023-12-31")] []
            [ ⟨"us-gaap:Revenues", some "C1", none, none, "10"⟩,
              ⟨"us-gaap:SalesRevenueNet", some "C1", none, none, "20"⟩ ])
          ((lookup concept_map "revenue").getD []))
        "2023-12-31" = some 20 ∧
      lookup
        (mergeConcepts
          (scanFacts [("C1", "2023-12-31")] []
            [ ⟨"us-gaap:Revenues", some "C1", none, none, "10"⟩,
              ⟨"us-gaap:SalesRevenueNet", some "C1", none, none, "20"⟩ ])
          ((lookup concept_map "revenue").getD []))
        "2023-12-31" ≠ some 10) ∧
    (lookup2
        (scanFacts [("C1", "2023-12-31")] []
          [ ⟨"us-gaap:Revenues", some "C1", none, none, "100"⟩,
            ⟨"us-gaap:Revenues", some "C1", none, none, "50"⟩ ])
        "us-gaap:Revenues" "2023-12-31" = some 50 ∧
      lookup2
        (scanFacts [("C1", "2023-12-31")] []
          [ ⟨"us-gaap:Revenues", some "C1", none, none, "100"⟩,
            ⟨"us-gaap:Revenues", some "C1", none, none, "50"⟩ ])
        "us-gaap:Revenues" "2023-12-31" ≠ some 100) :=
  ⟨⟨rfl, by decide⟩, ⟨rfl, by decide⟩⟩

/-- Claim C2 (amended): the merged Fact Table holds, for each period, the
value of the LAST acceptable source concept in list order that reports the
period (a later-listed, i.e. lower-preference, concept overrides an
earlier one), and duplicate assertions for the same (concept, period) pair
resolve to the last value in scan order, not the maximum. -/
theorem c2_amended :
    (∀ (ctxMap unitMap : List (String × String)) (facts : List IxFact)
        (L1 : List String) (c : String) (L2 : List String) (p : String) (v : ℚ),
      lookup2 (scanFacts ctxMap unitMap facts) c p = some v →
      (∀ c' ∈ L2, lookup2 (scanFacts ctxMap unitMap facts) c' p = none) →
      lookup (mergeConcepts (scanFacts ctxMap unitMap facts) (L1 ++ c :: L2))
          p = some v) ∧
    (∀ (ctxMap unitMap : List (String × String)) (fs1 : List IxFact)
        (f : IxFact) (fs2 : List IxFact) (c p : String) (v : ℚ),
      processFact ctxMap unitMap f = some (c, p, v) →
      (∀ g ∈ fs2, ∀ v', processFact ctxMap unitMap g ≠ some (c, p, v')) →
      lookup2 (scanFacts ctxMap unitMap (fs1 ++ f :: fs2)) c p = some v) := by
  constructor
  · intro ctxMap unitMap facts L1 c L2 p v h h2
    set raw := scanFacts ctxMap unitMap facts with hraw
    rw [lookup2] at h
    cases hl : lookup raw c with
    | none => rw [hl] at h; simp at h
    | some pm =>
        rw [hl] at h
        simp only [Option.some_bind] at h
        have hnd : (pm.map Prod.fst).Nodup :=
          scanFacts_values_nodup ctxMap unitMap facts c pm hl
        rw [mergeConcepts, List.foldl_append, List.foldl_cons]
        rw [merge_fold_preserve raw L2 _ p h2]
        have hpm_ne : pm ≠ [] := by
          intro he
          rw [he, lookup] at h
          exact Option.noConfusion h
        rw [mergeStep, hl]
        simp only [hpm_ne, if_false]
        exact foldUpd_lookup_mem pm _ p v hnd h
  · intro ctxMap unitMap fs1 f fs2 c p v h h2
    rw [scanFacts, List.foldl_append, List.foldl_cons]
    rw [scan_fold_preserve ctxMap unitMap fs2 _ c p h2]
    exact scanStep_lookup2_self ctxMap unitMap _ f c p v h

/-- Witness for C2 (amended) at concrete inputs: `SalesRevenueNet` is the
last concept reporting 2023-12-31 so its value 20 lands in the merged
table, and the second of two duplicate `Revenues` facts (value 50) is the
stored one. -/
theorem c2_witness :
    (lookup2
        (scanFacts [("C1", "2023-12-31")] []
          [ ⟨"us-gaap:Revenues", some "C1", none, none, "10"⟩,
            ⟨"us-gaap:SalesRevenueNet", some "C1", none, none, "20"⟩ ])
        "us-gaap:SalesRevenueNet" "2023-12-31" = some 20) ∧
    (lookup
        (mergeConcepts
          (scanFacts [("C1", "2023-12-31")] []
            [ ⟨"us-gaap:Revenues", some "C1", none, none, "10"⟩,
              ⟨"us-gaap:SalesRevenueNet", some "C1", none, none, "20"⟩ ])
          (["us-gaap:Revenues"] ++ "us-gaap:SalesRevenueNet" ::
            ["us-gaap:RevenueFromContractWithCustomerExcludingAssessedTax"]))
        "2023-12-31" = some 20) ∧
    (lookup2
        (scanFacts [("C1", "2023-12-31")]  []
          ([⟨"us-gaap:Revenues", some "C1", none, none, "100"⟩] ++
            ⟨"us-gaap:Revenues", some "C1", none, none, "50"⟩ :: []))
        "us-gaap:Revenues" "2023-12-31" = some 50) := by
  refine ⟨rfl, ?_, ?_⟩
  · exact c2_amended.1 [("C1", "2023-12-31")] []
      [ ⟨"us-gaap:Revenues", some "C1", none, none, "10"⟩,
        ⟨"us-gaap:SalesRevenueNet", some "C1", none, none, "20"⟩ ]
      ["us-gaap:Revenues"] "us-gaap:SalesRevenueNet"
      ["us-gaap:RevenueFromContractWithCustomerExcludingAssessedTax"]
      "2023-12-31" 20 rfl (by decide)
  · exact c2_amended.2 [("C1", "2023-12-31")] []
      [⟨"us-gaap:Revenues", some "C1", none, none, "100"⟩]
      ⟨"us-gaap:Revenues", some "C1", none, none, "50"⟩ [] "us-gaap:Revenues"
      "2023-12-31" 50 rfl (by simp)

/-- Claim C1: every inline numeric fact the scanner stores carries the value
`parsed raw number * decimal_scale * unit_scale`, where the decimal scale is
`10^|decimals|` for a negative parsed decimals attribute, `1/10^decimals`
for a positive one, and `1` when the attribute is absent or unparsable. -/
theorem c1_inline_fact_scaling (ctxMap unitMap : List (String × String))
    (f : IxFact) (c p : String) (v : ℚ)
    (h : processFact ctxMap unitMap f = some (c, p, v)) :
    ∃ n : ℚ, safe_parse_number (pyStrip f.text) = some n ∧
      v = n * decimalScaleSpec f.decimals *
            scale_unit (unitDescOf unitMap f.unitref) := by
  unfold processFact at h
  split at h
  · exact absurd h (by simp)
  split at h
  · exact absurd h (by simp)
  split at h
  · exact absurd h (by simp)
  split at h
  · exact absurd h (by simp)
  split at h
  · exact absurd h (by simp)
  split at h
  · exact absurd h (by simp)
  split at h
  · exact absurd h (by simp)
  rename_i n hn
  refine ⟨n, hn, ?_⟩
  simp only [Option.some.injEq, Prod.mk.injEq] at h
  obtain ⟨h1, h2, h3⟩ := h
  rw [← h3, qmul_eq, qmul_eq, scale_decimals_eq_spec]

/-- Witness for C1 at the claim's own instance: decimals = "-6", raw text
"648,125", no unit scale hint; the stored value is exactly
648125 · 10⁶ = 648 125 000 000. -/
theorem c1_witness :
    processFact [("C1", "2023-12-31")] []
        ⟨"us-gaap:Revenues", some "C1", some "-6", none, "648,125"⟩ =
      some ("us-gaap:Revenues", "2023-12-31", 648125000000) ∧
    ∃ n : ℚ,
      safe_parse_number (pyStrip "648,125") = some n ∧
      (648125000000 : ℚ) = n * decimalScaleSpec (some "-6") *
        scale_unit (unitDescOf [] none) := by
  refine ⟨rfl, ?_⟩
  exact c1_inline_fact_scaling [("C1", "2023-12-31")] []
    ⟨"us-gaap:Revenues", some "C1", some "-6", none, "648,125"⟩
    "us-gaap:Revenues" "2023-12-31" 648125000000 rfl

theorem reconciler_fold_lookup (ctxMap : List (String × String))
    (fs : List IxFact) (m : List (String × ℚ)) (p : String) :
    lookup (fs.foldl (reconcilerStep ctxMap) m) p =
      maxFold (lookup m p) (reconcilerValsAt ctxMap fs p) := by
  induction fs generalizing m with
  | nil => simp [reconcilerValsAt, maxFold]
  | cons f t ih =>
      rw [List.foldl_cons, ih]
      cases hv : reconcilerFactValue ctxMap f with
      | none => simp [reconcilerValsAt, reconcilerStep, hv, List.filterMap_cons]
      | some pv =>
          obtain ⟨p', v⟩ := pv
          by_cases hp : p' = p
          · subst hp
            have hvals : reconcilerValsAt ctxMap (f :: t) p' =
                v :: reconcilerValsAt ctxMap t p' := by
              simp [reconcilerValsAt, List.filterMap_cons, hv]
            rw [hvals]
            have hstep : lookup (reconcilerStep ctxMap m f) p' =
                (match lookup m p' with
                 | none => some v
                 | some a => if a < v then some v else some a) := by
              rw [reconcilerStep, hv]
              cases hl : lookup m p' with
              | none => simp [hl, lookup_upd_self]
              | some prev =>
                  simp only [hl]
                  by_cases hlt : prev < v
                  · simp [hlt, lookup_upd_self]
                  · simp [hlt, hl]
            rw [hstep]
            rfl
          · have hvals : reconcilerValsAt ctxMap (f :: t) p =
                reconcilerValsAt ctxMap t p := by
              simp [reconcilerValsAt, List.filterMap_cons, hv, hp]
            have hstep : lookup (reconcilerStep ctxMap m f) p = lookup m p := by
              rw [reconcilerStep, hv]
              cases hl : lookup m p' with
              | none => simp [hl, lookup_upd_ne _ _ _ _ (Ne.symm hp)]
              | some prev =>
                  simp only [hl]
                  by_cases hlt : prev < v
                  · simp [hlt, lookup_upd_ne _ _ _ _ (Ne.symm hp)]
                  · simp [hlt]
            rw [hvals, hstep]

theorem maxFold_some_spec (l : List ℚ) :
    ∀ (a v : ℚ), maxFold (some a) l = some v →
      (v = a ∨ v ∈ l) ∧ a ≤ v ∧ ∀ x ∈ l, x ≤ v := by
  induction l with
  | nil =>
      intro a v h
      simp [maxFold] at h
      exact ⟨Or.inl h.symm, le_of_eq h, by simp⟩
  | cons x t ih =>
      intro a v h
      rw [maxFold, List.foldl_cons] at h
      by_cases hlt : a < x
      · simp only [hlt, if_true] at h
        obtain ⟨hmem, hle, hall⟩ := ih x v h
        refine ⟨?_, le_of_lt (lt_of_lt_of_le hlt hle), ?_⟩
        · rcases hmem with h' | h'
          · exact Or.inr (by simp [h'])
          · exact Or.inr (by simp [h'])
        · intro y hy
          rcases List.mem_cons.mp hy with h' | h'
          · exact h' ▸ hle
          · exact hall y h'
      · simp only [hlt, if_false] at h
        obtain ⟨hmem, hle, hall⟩ := ih a v h
        refine ⟨?_, hle, ?_⟩
        · rcases hmem with h' | h'
          · exact Or.inl h'
          · exact Or.inr (by simp [h'])
        · intro y hy
          rcases List.mem_cons.mp hy with h' | h'
          · exact h' ▸ le_trans (le_of_not_lt hlt) hle
          · exact hall y h'

theorem maxFold_some_total (l : List ℚ) :
    ∀ a : ℚ, ∃ v, maxFold (some a) l = some v := by
  induction l with
  | nil => intro a; exact ⟨a, rfl⟩
  | cons x t ih =>
      intro a
      rw [maxFold, List.foldl_cons]
      by_cases hlt : a < x
      · simpa [hlt] using ih x
      · simpa [hlt] using ih a

/-- Claim C3: (1) an empty narrow pass leaves the Fact Table exactly
unchanged; (2) a non-empty narrow pass replaces the `revenue` entry
wholesale with the reconciled map and touches no other metric; (3) every
reconciled value is the maximum of the scaled values the narrow pass saw
for that period; (4) every period the narrow pass saw gets an entry. -/
theorem c3_revenue_reconciler :
    (∀ (ctxMap : List (String × String)) (fs : List IxFact)
        (facts : List (String × List (String × ℚ))),
      extract_revenue_direct ctxMap fs = [] →
      fix_revenue_from_ixbrl ctxMap fs facts = facts) ∧
    (∀ (ctxMap : List (String × String)) (fs : List IxFact)
        (facts : List (String × List (String × ℚ))),
      extract_revenue_direct ctxMap fs ≠ [] →
      lookup (fix_revenue_from_ixbrl ctxMap fs facts) "revenue" =
          some (extract_revenue_direct ctxMap fs) ∧
        ∀ k, k ≠ "revenue" →
          lookup (fix_revenue_from_ixbrl ctxMap fs facts) k = lookup facts k) ∧
    (∀ (ctxMap : List (String × String)) (fs : List IxFact) (p : String)
        (v : ℚ),
      lookup (extract_revenue_direct ctxMap fs) p = some v →
      v ∈ reconcilerValsAt ctxMap fs p ∧
        ∀ x ∈ reconcilerValsAt ctxMap fs p, x ≤ v) ∧
    (∀ (ctxMap : List (String × String)) (fs : List IxFact) (p : String),
      reconcilerValsAt ctxMap fs p ≠ [] →
      ∃ v, lookup (extract_revenue_direct ctxMap fs) p = some v) := by
  refine ⟨?_, ?_, ?_, ?_⟩
  · intro ctxMap fs facts h
    rw [fix_revenue_from_ixbrl, if_pos h]
  · intro ctxMap fs facts h
    rw [fix_revenue_from_ixbrl, if_neg h]
    exact ⟨lookup_upd_self _ _ _, fun k hk => lookup_upd_ne _ _ _ _ hk⟩
  · intro ctxMap fs p v h
    rw [extract_revenue_direct, reconciler_fold_lookup] at h
    cases hv : reconcilerValsAt ctxMap fs p with
    | nil => rw [hv] at h; simp [maxFold, lookup] at h
    | cons x t =>
        rw [hv] at h
        rw [show maxFold (lookup ([] : List (String × ℚ)) p) (x :: t) =
            maxFold (some x) t from rfl] at h
        obtain ⟨hmem, hle, hall⟩ := maxFold_some_spec t x v h
        refine ⟨?_, ?_⟩
        · rcases hmem with h' | h'
          · exact h' ▸ List.mem_cons_self x t
          · exact List.mem_cons_of_mem x h'
        · intro y hy
          rcases List.mem_cons.mp hy with h' | h'
          · exact h' ▸ hle
          · exact hall y h'
  · intro ctxMap fs p h
    rw [extract_revenue_direct, reconciler_fold_lookup]
    cases hv : reconcilerValsAt ctxMap fs p with
    | nil => exact absurd hv h
    | cons x t =>
        rw [show maxFold (lookup ([] : List (String × ℚ)) p) (x :: t) =
            maxFold (some x) t from rfl]
        exact maxFold_some_total t x

/-- Witness for C3: two duplicate reconciler-tracked revenue facts, scaled
100 and 120, for one period; the reconciled value is 120 and it replaces
the generic table's revenue entry (value 5) wholesale while leaving
`net_income` untouched. -/
theorem c3_witness :
    (extract_revenue_direct [("C1", "2023-12-31")]
        [ ⟨"us-gaap:Revenues", some "C1", none, none, "100"⟩,
          ⟨"us-gaap:Revenues", some "C1", none, none, "120"⟩ ] =
      [("2023-12-31", 120)]) ∧
    (lookup
        (fix_revenue_from_ixbrl [("C1", "2023-12-31")]
          [ ⟨"us-gaap:Revenues", some "C1", none, none, "100"⟩,
            ⟨"us-gaap:Revenues", some "C1", none, none, "120"⟩ ]
          [ ("revenue", [("2023-12-31", 5)]),
            ("net_income", [("2023-12-31", 7)]) ])
        "revenue" =
      some (extract_revenue_direct [("C1", "2023-12-31")]
        [ ⟨"us-gaap:Revenues", some "C1", none, none, "100"⟩,
          ⟨"us-gaap:Revenues", some "C1", none, none, "120"⟩ ]) ∧
      ∀ k, k ≠ "revenue" →
        lookup
            (fix_revenue_from_ixbrl [("C1", "2023-12-31")]
              [ ⟨"us-gaap:Revenues", some "C1", none, none, "100"⟩,
                ⟨"us-gaap:Revenues", some "C1", none, none, "120"⟩ ]
              [ ("revenue", [("2023-12-31", 5)]),
                ("net_income", [("2023-12-31", 7)]) ])
            k =
          lookup
            [ ("revenue", [("2023-12-31", 5)]),
              ("net_income", [("2023-12-31", 7)]) ] k) ∧
    ((120 : ℚ) ∈ reconcilerValsAt [("C1", "2023-12-31")]
        [ ⟨"us-gaap:Revenues", some "C1", none, none, "100"⟩,
          ⟨"us-gaap:Revenues", some "C1", none, none, "120"⟩ ] "2023-12-31" ∧
      ∀ x ∈ reconcilerValsAt [("C1", "2023-12-31")]
          [ ⟨"us-gaap:Revenues", some "C1", none, none, "100"⟩,
            ⟨"us-gaap:Revenues", some "C1", none, none, "120"⟩ ] "2023-12-31",
        x ≤ 120) := by
  refine ⟨rfl, ?_, ?_⟩
  · exact c3_revenue_reconciler.2.1 [("C1", "2023-12-31")]
      [ ⟨"us-gaap:Revenues", some "C1", none, none, "100"⟩,
        ⟨"us-gaap:Revenues", some "C1", none, none, "120"⟩ ]
      [ ("revenue", [("2023-12-31", 5)]),
        ("net_income", [("2023-12-31", 7)]) ]
      (by decide)
  · exact c3_revenue_reconciler.2.2.1 [("C1", "2023-12-31")]
      [ ⟨"us-gaap:Revenues", some "C1", none, none, "100"⟩,
        ⟨"us-gaap:Revenues", some "C1", none, none, "120"⟩ ]
      "2023-12-31" 120 rfl

theorem lookup_append {α : Type} (l1 l2 : List (String × α)) (k : String) :
    lookup (l1 ++ l2) k =
      match lookup l1 k with
      | some v => some v
      | none => lookup l2 k := by
  induction l1 with
  | nil => simp [lookup]
  | cons hd t ih =>
      obtain ⟨k1, v1⟩ := hd
      by_cases hk : k1 = k <;> simp [lookup, hk, ih]

/-- Claim C4 counterexample: with revenue present but ZERO and
cost_of_sales = 5, the per-period metrics of `financial_calcs` contain
`gross_margin` with value 0 — the zero-denominator margin is neither
absent nor an error, it is the number 0 (`safe_div` returns 0.0). -/
theorem c4_counterexample :
    get_any_value [("revenue", [("P", 0)]), ("cost_of_sales", [("P", 5)])]
        ["net_sales", "revenue"] "P" = some 0 ∧
    lookup
        (compute_metrics_for_period
          [("revenue", [("P", 0)]), ("cost_of_sales", [("P", 5)])] "P")
        "gross_margin" = some 0 :=
  ⟨rfl, rfl⟩

/-- Claim C4 (amended): a missing denominator always yields an absent
result, and no division raises; a PRESENT-BUT-ZERO denominator yields an
absent result in the FinancialAgent margins, in `_safe_growth` and in the
ValuationAgent ratios, but in the `financial_calcs` margins it yields the
value 0 (via `safe_div`), not an absent value. -/
theorem c4_amended :
    (∀ a : ℚ, safe_div a 0 = 0) ∧
    (∀ (facts : List (String × List (String × ℚ))) (p : String)
        (prev : Option AgentMetrics),
      get_value facts "revenue" p = none ∨ get_value facts "revenue" p = some 0 →
      (agentPeriodMetrics facts p prev).ebitda_margin = none ∧
        (agentPeriodMetrics facts p prev).net_margin = none ∧
        (agentPeriodMetrics facts p prev).fcf_margin = none) ∧
    (∀ c p : Option ℚ, c = none ∨ p = none ∨ p = some 0 →
      safe_growth c p = none) ∧
    (∀ mc n : Option ℚ, n = none ∨ n = some 0 → val_pe mc n = none) ∧
    (∀ mc f : Option ℚ,
      mc = none ∨ mc = some 0 ∨ f = none ∨ f = some 0 →
      val_fcf_yield mc f = none) ∧
    (∀ (facts : List (String × List (String × ℚ))) (p : String),
      get_any_value facts ["net_sales", "revenue"] p = none →
      lookup (compute_metrics_for_period facts p) "gross_margin" = none ∧
        lookup (compute_metrics_for_period facts p) "operating_margin" = none ∧
        lookup (compute_metrics_for_period facts p) "ebitda_margin" = none ∧
        lookup (compute_metrics_for_period facts p) "net_margin" = none ∧
        lookup (compute_metrics_for_period facts p) "fcf_margin" = none) ∧
    (∀ (facts : List (String × List (String × ℚ))) (p : String) (c : ℚ),
      get_any_value facts ["net_sales", "revenue"] p = some 0 →
      get_value facts "cost_of_sales" p = some c →
      lookup (compute_metrics_for_period facts p) "gross_margin" = some 0) := by
  refine ⟨?_, ?_, ?_, ?_, ?_, ?_, ?_⟩
  · intro a
    simp [safe_div]
  · intro facts p prev h
    rcases h with h | h <;>
      simp [agentPeriodMetrics, h]
  · intro c p h
    rcases h with h | h | h
    · simp [safe_growth, h]
    · cases c <;> simp [safe_growth, h]
    · cases c <;> simp [safe_growth, h]
  · intro mc n h
    rcases h with h | h <;> cases mc <;> simp [val_pe, h]
  · intro mc f h
    rcases h with h | h | h | h
    · simp [val_fcf_yield, h]
    · cases f <;> simp [val_fcf_yield, h]
    · cases mc <;> simp [val_fcf_yield, h]
    · cases mc <;> simp [val_fcf_yield, h]
  · intro facts p h
    rcases hni : get_value facts "net_income" p with _ | n <;>
      rcases hocf : get_value facts "operating_cash_flow" p with _ | o <;>
        rcases hcx : get_value facts "capital_expenditures" p with _ | cx <;>
          simp [compute_metrics_for_period, h, hni, hocf, hcx,
            lookup_append, lookup]
  · intro facts p c h hcos
    rcases hni : get_value facts "net_income" p with _ | n <;>
      rcases hocf : get_value facts "operating_cash_flow" p with _ | o <;>
        rcases hcx : get_value facts "capital_expenditures" p with _ | cx <;>
          simp [compute_metrics_for_period, h, hcos, hni, hocf, hcx,
            lookup_append, lookup, safe_div]

/-- Witness for C4 (amended) at concrete inputs. -/
theorem c4_witness :
    (get_value [("cost_of_sales", [("P", (5 : ℚ))])] "revenue" "P" = none ∧
      (agentPeriodMetrics [("cost_of_sales", [("P", 5)])] "P" none).net_margin =
        none) ∧
    safe_growth (some 3) (some 0) = none ∧
    val_pe (some 100) (some 0) = none ∧
    val_fcf_yield (some 0) (some 7) = none ∧
    (get_any_value [("cost_of_sales", [("P", (5 : ℚ))])]
        ["net_sales", "revenue"] "P" = none ∧
      lookup (compute_metrics_for_period [("cost_of_sales", [("P", 5)])] "P")
        "gross_margin" = none) := by
  refine ⟨⟨rfl, ?_⟩, ?_, ?_, ?_, ⟨rfl, ?_⟩⟩
  · exact (c4_amended.2.1 [("cost_of_sales", [("P", 5)])] "P" none
      (Or.inl rfl)).2.1
  · exact c4_amended.2.2.1 (some 3) (some 0) (Or.inr (Or.inr rfl))
  · exact c4_amended.2.2.2.1 (some 100) (some 0) (Or.inr rfl)
  · exact c4_amended.2.2.2.2.1 (some 0) (some 7) (Or.inr (Or.inl rfl))
  · exact (c4_amended.2.2.2.2.2.1 [("cost_of_sales", [("P", 5)])] "P"
      rfl).1

/-- Claim C5 counterexample: with operating_income = 20, D&A = 5,
net_income = 10, interest = 2, tax = 3 for one period, the
`financial_calcs` per-period metrics report ebitda = 10+2+3+5 = 20
(NI + interest + taxes + D&A), not the claimed preference-chain value
operating_income + D&A = 25. -/
theorem c5_counterexample :
    lookup
        (compute_metrics_for_period
          [ ("operating_income", [("P", 20)]),
            ("depreciation_and_amortization", [("P", 5)]),
            ("net_income", [("P", 10)]),
            ("interest_expense", [("P", 2)]),
            ("income_tax_expense", [("P", 3)]) ] "P")
        "ebitda" = some 20 ∧
    lookup
        (compute_metrics_for_period
          [ ("operating_income", [("P", 20)]),
            ("depreciation_and_amortization", [("P", 5)]),
            ("net_income", [("P", 10)]),
            ("interest_expense", [("P", 2)]),
            ("income_tax_expense", [("P", 3)]) ] "P")
        "ebitda" ≠ some 25 ∧
    ebitdaChainSpec (some 20) (some 5) (some 10) = some 25 := by
  refine ⟨rfl, by decide, ?_⟩
  norm_num [ebitdaChainSpec]

/-- Claim C5 (amended): the FinancialAgent's ebitda follows exactly the
claimed preference chain, but the `financial_calcs` per-period helper
instead computes ebitda = net_income + interest + income-tax + D&A
(each addend contributing its value when present and 0 when absent)
whenever net_income is present, and no ebitda at all when net_income is
absent. -/
theorem c5_amended :
    (∀ (facts : List (String × List (String × ℚ))) (p : String)
        (prev : Option AgentMetrics),
      (agentPeriodMetrics facts p prev).ebitda =
        ebitdaChainSpec (get_value facts "operating_income" p)
          (get_value facts "depreciation_amortization" p)
          (get_value facts "net_income" p)) ∧
    (∀ (n : ℚ) (i t d : Option ℚ),
      calcs_ebitda n i t d = n + i.getD 0 + t.getD 0 + d.getD 0) ∧
    (∀ (facts : List (String × List (String × ℚ))) (p : String) (n : ℚ),
      get_value facts "net_income" p = some n →
      lookup (compute_metrics_for_period facts p) "ebitda" =
        some (calcs_ebitda n
          (get_any_value facts
            ["interest_expense", "interest_and_other_expense",
             "interest_and_other"] p)
          (get_any_value facts
            ["income_tax_expense", "provision_for_income_taxes"] p)
          (get_any_value facts
            ["depreciation_and_amortization", "depreciation_amortization"]
            p))) ∧
    (∀ (facts : List (String × List (String × ℚ))) (p : String),
      get_value facts "net_income" p = none →
      lookup (compute_metrics_for_period facts p) "ebitda" = none) := by
  refine ⟨?_, ?_, ?_, ?_⟩
  · intro facts p prev
    rcases hoi : get_value facts "operating_income" p with _ | o <;>
      rcases hda : get_value facts "depreciation_amortization" p with _ | d <;>
        rcases hni : get_value facts "net_income" p with _ | n <;>
          simp [agentPeriodMetrics, ebitdaChainSpec, hoi, hda, hni, qadd_eq]
  · intro n i t d
    rcases i with _ | i <;> rcases t with _ | t <;> rcases d with _ | d <;>
      simp [calcs_ebitda, qadd_eq]
  · intro facts p n hni
    rcases hrev : get_any_value facts ["net_sales", "revenue"] p with _ | r <;>
      rcases hcos : get_value facts "cost_of_sales" p with _ | c <;>
        rcases hoi : get_value facts "operating_income" p with _ | oi <;>
          rcases hocf : get_value facts "operating_cash_flow" p with _ | o <;>
            rcases hcx : get_value facts "capital_expenditures" p with _ | cx <;>
              simp [compute_metrics_for_period, hni, hrev, hcos, hoi,
                hocf, hcx, lookup_append, lookup]
  · intro facts p hni
    rcases hrev : get_any_value facts ["net_sales", "revenue"] p with _ | r <;>
      rcases hcos : get_value facts "cost_of_sales" p with _ | c <;>
        rcases hoi : get_value facts "operating_income" p with _ | oi <;>
          rcases hocf : get_value facts "operating_cash_flow" p with _ | o <;>
            rcases hcx : get_value facts "capital_expenditures" p with _ | cx <;>
              simp [compute_metrics_for_period, hni, hrev, hcos, hoi, hocf,
                hcx, lookup_append, lookup]

/-- Witness for C5 (amended) at the counterexample's inputs. -/
theorem c5_witness :
    ((agentPeriodMetrics
        [ ("operating_income", [("P", 20)]),
          ("depreciation_amortization", [("P", 5)]),
          ("net_income", [("P", 10)]) ] "P" none).ebitda =
      ebitdaChainSpec (some 20) (some 5) (some 10)) ∧
    (get_value
        [ ("operating_income", [("P", (20 : ℚ))]),
          ("depreciation_and_amortization", [("P", 5)]),
          ("net_income", [("P", 10)]),
          ("interest_expense", [("P", 2)]),
          ("income_tax_expense", [("P", 3)]) ] "net_income" "P" = some 10 ∧
      lookup
          (compute_metrics_for_period
            [ ("operating_income", [("P", 20)]),
              ("depreciation_and_amortization", [("P", 5)]),
              ("net_income", [("P", 10)]),
              ("interest_expense", [("P", 2)]),
              ("income_tax_expense", [("P", 3)]) ] "P")
          "ebitda" = some (calcs_ebitda 10 (some 2) (some 3) (some 5)) ∧
      calcs_ebitda 10 (some 2) (some 3) (some 5) =
        10 + (some (2 : ℚ)).getD 0 + (some (3 : ℚ)).getD 0 +
          (some (5 : ℚ)).getD 0) := by
  constructor
  · have h := c5_amended.1
      [ ("operating_income", [("P", 20)]),
        ("depreciation_amortization", [("P", 5)]),
        ("net_income", [("P", 10)]) ] "P" none
    have e1 : get_value
        [ ("operating_income", [("P", (20 : ℚ))]),
          ("depreciation_amortization", [("P", 5)]),
          ("net_income", [("P", 10)]) ] "operating_income" "P" = some 20 := rfl
    have e2 : get_value
        [ ("operating_income", [("P", (20 : ℚ))]),
          ("depreciation_amortization", [("P", 5)]),
          ("net_income", [("P", 10)]) ] "depreciation_amortization" "P" =
        some 5 := rfl
    have e3 : get_value
        [ ("operating_income", [("P", (20 : ℚ))]),
          ("depreciation_amortization", [("P", 5)]),
          ("net_income", [("P", 10)]) ] "net_income" "P" = some 10 := rfl
    rw [e1, e2, e3] at h
    exact h
  · refine ⟨rfl, ?_, ?_⟩
    · have h := c5_amended.2.2.1
        [ ("operating_income", [("P", 20)]),
          ("depreciation_and_amortization", [("P", 5)]),
          ("net_income", [("P", 10)]),
          ("interest_expense", [("P", 2)]),
          ("income_tax_expense", [("P", 3)]) ] "P" 10 rfl
      have e1 : get_any_value
          [ ("operating_income", [("P", (20 : ℚ))]),
            ("depreciation_and_amortization", [("P", 5)]),
            ("net_income", [("P", 10)]),
            ("interest_expense", [("P", 2)]),
            ("income_tax_expense", [("P", 3)]) ]
          ["interest_expense", "interest_and_other_expense",
           "interest_and_other"] "P" = some 2 := rfl
      have e2 : get_any_value
          [ ("operating_income", [("P", (20 : ℚ))]),
            ("depreciation_and_amortization", [("P", 5)]),
            ("net_income", [("P", 10)]),
            ("interest_expense", [("P", 2)]),
            ("income_tax_expense", [("P", 3)]) ]
          ["income_tax_expense", "provision_for_income_taxes"] "P" =
          some 3 := rfl
      have e3 : get_any_value
          [ ("operating_income", [("P", (20 : ℚ))]),
            ("depreciation_and_amortization", [("P", 5)]),
            ("net_income", [("P", 10)]),
            ("interest_expense", [("P", 2)]),
            ("income_tax_expense", [("P", 3)]) ]
          ["depreciation_and_amortization", "depreciation_amortization"]
          "P" = some 5 := rfl
      rw [e1, e2, e3] at h
      exact h
    · exact c5_amended.2.1 10 (some 2) (some 3) (some 5)

theorem yoyAdjacent_map_snd (sp : List String) :
    (yoyAdjacent sp).map Prod.snd = sp.tail := by
  induction sp with
  | nil => rfl
  | cons a rest ih =>
      cases rest with
      | nil => rfl
      | cons b rest2 => simp [yoyAdjacent, ih]

theorem mem_snd_eq_of_nodup {l : List (String × String)}
    (hnd : (l.map Prod.snd).Nodup) {a b : String × String}
    (ha : a ∈ l) (hb : b ∈ l) (he : a.2 = b.2) : a = b := by
  induction l with
  | nil => simp at ha
  | cons hd t ih =>
      rw [List.map_cons, List.nodup_cons] at hnd
      rcases List.mem_cons.mp ha with ha' | ha' <;>
        rcases List.mem_cons.mp hb with hb' | hb'
      · rw [ha', hb']
      · exact absurd (List.mem_map.mpr ⟨b, hb', (ha' ▸ he).symm⟩) hnd.1
      · exact absurd (List.mem_map.mpr ⟨a, ha', hb' ▸ he⟩) hnd.1
      · exact ih hnd.2 ha' hb'

theorem growth_fold_preserve (pp : List (String × List (String × ℚ)))
    (metric : String) (pairs : List (String × String))
    (gm : List (String × ℚ)) (q : String)
    (h : ∀ pr ∈ pairs, pr.2 ≠ q) :
    lookup (pairs.foldl (growthStep pp metric) gm) q = lookup gm q := by
  induction pairs generalizing gm with
  | nil => simp
  | cons pr t ih =>
      rw [List.foldl_cons, ih _ (fun pr' h' => h pr' (by simp [h']))]
      cases hc : lookup2 pp pr.2 metric with
      | none => simp [growthStep, hc]
      | some c =>
          cases hp : lookup2 pp pr.1 metric with
          | none => simp [growthStep, hc, hp]
          | some pv =>
              by_cases hz : pv = 0
              · simp [growthStep, hc, hp, hz]
              · simp [growthStep, hc, hp, hz,
                  lookup_upd_ne gm pr.2 q _ (Ne.symm (h pr (by simp)))]

theorem growth_fold_none (pp : List (String × List (String × ℚ)))
    (metric : String) (pairs : List (String × String))
    (gm : List (String × ℚ)) (q : String)
    (h0 : lookup gm q = none)
    (h : ∀ pr ∈ pairs, pr.2 = q →
      lookup2 pp q metric = none ∨ lookup2 pp pr.1 metric = none ∨
        lookup2 pp pr.1 metric = some 0) :
    lookup (pairs.foldl (growthStep pp metric) gm) q = none := by
  induction pairs generalizing gm with
  | nil => simpa using h0
  | cons pr t ih =>
      rw [List.foldl_cons]
      refine ih _ ?_ (fun pr' h' he => h pr' (by simp [h']) he)
      by_cases hq : pr.2 = q
      · rcases h pr (by simp) hq with hbad | hbad | hbad
        · rw [growthStep, hq, hbad]
          exact h0
        · rw [growthStep, hbad]
          cases lookup2 pp pr.2 metric <;> exact h0
        · rw [growthStep, hbad]
          cases lookup2 pp pr.2 metric <;> simp [h0]
      · cases hc : lookup2 pp pr.2 metric with
        | none => simpa [growthStep, hc] using h0
        | some c =>
            cases hp : lookup2 pp pr.1 metric with
            | none => simpa [growthStep, hc, hp] using h0
            | some pv =>
                by_cases hz : pv = 0
                · simpa [growthStep, hc, hp, hz] using h0
                · simpa [growthStep, hc, hp, hz,
                    lookup_upd_ne gm pr.2 q _ (Ne.symm hq)] using h0

theorem tail_nodup {sp : List String} (hnd : sp.Nodup) : sp.tail.Nodup := by
  cases sp with
  | nil => simp
  | cons a t => exact (List.nodup_cons.mp hnd).2

theorem growth_mem_formula (pp : List (String × List (String × ℚ)))
    (metric : String) (sp : List String) (prevP q : String) (c pv : ℚ)
    (hnd : sp.Nodup) (hmem : (prevP, q) ∈ yoyAdjacent sp)
    (hc : lookup2 pp q metric = some c)
    (hp : lookup2 pp prevP metric = some pv) (hnz : pv ≠ 0) :
    lookup (growth_for_metric pp sp metric) q = some ((c - pv) / pv) := by
  obtain ⟨P1, P2, hsplit⟩ := List.append_of_mem hmem
  have hsnd : ((yoyAdjacent sp).map Prod.snd).Nodup := by
    rw [yoyAdjacent_map_snd]
    exact tail_nodup hnd
  have hP2 : ∀ pr ∈ P2, pr.2 ≠ q := by
    intro pr hpr he
    rw [hsplit, List.map_append, List.map_cons] at hsnd
    have := (List.Nodup.of_append_right hsnd)
    rw [List.nodup_cons] at this
    exact this.1 (List.mem_map.mpr ⟨pr, hpr, he⟩)
  rw [growth_for_metric, hsplit, List.foldl_append, List.foldl_cons,
    growth_fold_preserve pp metric P2 _ q hP2]
  rw [growthStep]
  simp only [hc, hp, hnz, if_false, lookup_upd_self]
  rw [qdiv_eq, qsub_eq]

theorem growth_first_none (pp : List (String × List (String × ℚ)))
    (metric : String) (p0 : String) (rest : List String)
    (hnd : (p0 :: rest).Nodup) :
    lookup (growth_for_metric pp (p0 :: rest) metric) p0 = none := by
  rw [growth_for_metric,
    growth_fold_preserve pp metric _ [] p0 ?_]
  · rfl
  · intro pr hpr he
    have : pr.2 ∈ (yoyAdjacent (p0 :: rest)).map Prod.snd :=
      List.mem_map.mpr ⟨pr, hpr, rfl⟩
    rw [yoyAdjacent_map_snd] at this
    exact (List.nodup_cons.mp hnd).1 (he ▸ this)

theorem growth_absent (pp : List (String × List (String × ℚ)))
    (metric : String) (sp : List String) (prevP q : String)
    (hnd : sp.Nodup) (hmem : (prevP, q) ∈ yoyAdjacent sp)
    (hbad : lookup2 pp q metric = none ∨ lookup2 pp prevP metric = none ∨
      lookup2 pp prevP metric = some 0) :
    lookup (growth_for_metric pp sp metric) q = none := by
  have hsnd : ((yoyAdjacent sp).map Prod.snd).Nodup := by
    rw [yoyAdjacent_map_snd]
    exact tail_nodup hnd
  refine growth_fold_none pp metric _ [] q rfl ?_
  intro pr hpr he
  have : pr = (prevP, q) := mem_snd_eq_of_nodup hsnd hpr hmem (by simp [he])
  rw [this]
  exact hbad

/-- Claim C6 counterexample: on net_income −100 (2021) then −300 (2022),
`_compute_yoy_growth` stores (−300 − (−100)) / (−100) = 2 — the claimed
formula (current − previous) / |previous| gives −2. -/
theorem c6_counterexample :
    lookup2
        (compute_yoy_growth
          [ ("2021", [("net_income", -100)]),
            ("2022", [("net_income", -300)]) ]
          ["2021", "2022"])
        "net_income_growth" "2022" = some 2 ∧
    lookup2
        (compute_yoy_growth
          [ ("2021", [("net_income", -100)]),
            ("2022", [("net_income", -300)]) ]
          ["2021", "2022"])
        "net_income_growth" "2022" ≠ some (-2) :=
  ⟨rfl, by decide⟩

/-- Claim C6 (amended): the FinancialAgent's growth is
`(current − previous) / |previous|` and is absent when an operand is
missing or the base is zero, with no growth entry for the first period;
the `financial_calcs` YoY pass divides by the SIGNED previous value
instead, with the same absence conditions and no entry for the
chronologically first period. -/
theorem c6_amended :
    (∀ c p : ℚ, p ≠ 0 →
      safe_growth (some c) (some p) = some ((c - p) / |p|)) ∧
    (∀ c p : Option ℚ, c = none ∨ p = none ∨ p = some 0 →
      safe_growth c p = none) ∧
    (∀ (facts : List (String × List (String × ℚ))) (p : String)
        (rest : List String) (prev : Option AgentMetrics),
      financial_metrics_list facts (p :: rest) prev =
        (p, agentPeriodMetrics facts p prev) ::
          financial_metrics_list facts rest
            (some (agentPeriodMetrics facts p prev))) ∧
    (∀ (facts : List (String × List (String × ℚ))) (p : String),
      (agentPeriodMetrics facts p none).revenue_growth = none ∧
        (agentPeriodMetrics facts p none).net_income_growth = none ∧
        (agentPeriodMetrics facts p none).fcf_growth = none ∧
        (agentPeriodMetrics facts p none).ebitda_growth = none) ∧
    (∀ (facts : List (String × List (String × ℚ))) (p : String)
        (pm : AgentMetrics),
      (agentPeriodMetrics facts p (some pm)).revenue_growth =
          safe_growth (get_value facts "revenue" p) pm.revenue ∧
        (agentPeriodMetrics facts p (some pm)).net_income_growth =
          safe_growth (get_value facts "net_income" p) pm.net_income ∧
        (agentPeriodMetrics facts p (some pm)).fcf_growth =
          safe_growth ((agentPeriodMetrics facts p (some pm)).fcf) pm.fcf ∧
        (agentPeriodMetrics facts p (some pm)).ebitda_growth =
          safe_growth ((agentPeriodMetrics facts p (some pm)).ebitda)
            pm.ebitda) ∧
    (∀ (per_period : List (String × List (String × ℚ)))
        (periods : List String),
      compute_yoy_growth per_period periods =
        [ ("revenue_growth",
            growth_for_metric per_period (sortedPeriods periods) "revenue"),
          ("net_income_growth",
            growth_for_metric per_period (sortedPeriods periods) "net_income"),
          ("fcf_growth",
            growth_for_metric per_period (sortedPeriods periods) "fcf"),
          ("ebitda_growth",
            growth_for_metric per_period (sortedPeriods periods) "ebitda") ]) ∧
    (∀ (pp : List (String × List (String × ℚ))) (metric : String)
        (sp : List String) (prevP q : String) (c pv : ℚ),
      sp.Nodup → (prevP, q) ∈ yoyAdjacent sp →
      lookup2 pp q metric = some c → lookup2 pp prevP metric = some pv →
      pv ≠ 0 →
      lookup (growth_for_metric pp sp metric) q = some ((c - pv) / pv)) ∧
    (∀ (pp : List (String × List (String × ℚ))) (metric : String)
        (sp : List String) (prevP q : String),
      sp.Nodup → (prevP, q) ∈ yoyAdjacent sp →
      (lookup2 pp q metric = none ∨ lookup2 pp prevP metric = none ∨
        lookup2 pp prevP metric = some 0) →
      lookup (growth_for_metric pp sp metric) q = none) ∧
    (∀ (pp : List (String × List (String × ℚ))) (metric : String)
        (p0 : String) (rest : List String),
      (p0 :: rest).Nodup →
      lookup (growth_for_metric pp (p0 :: rest) metric) p0 = none) := by
  refine ⟨?_, ?_, ?_, ?_, ?_, ?_, ?_, ?_, ?_⟩
  · intro c p hp
    simp [safe_growth, hp, qdiv_eq, qsub_eq, qabs_eq]
  · intro c p h
    rcases h with h | h | h
    · simp [safe_growth, h]
    · cases c <;> simp [safe_growth, h]
    · cases c <;> simp [safe_growth, h]
  · intro facts p rest prev
    rfl
  · intro facts p
    refine ⟨?_, ?_, ?_, ?_⟩ <;> simp [agentPeriodMetrics]
  · intro facts p pm
    refine ⟨?_, ?_, ?_, ?_⟩ <;> simp [agentPeriodMetrics]
  · intro per_period periods
    rfl
  · exact growth_mem_formula
  · exact growth_absent
  · exact growth_first_none

/-- Witness for C6 (amended) at the claim's own instance
[P1 = 100, P2 = 130]: the agent growth is (130−100)/|100| and the calcs
growth is (130−100)/100; P1 has no entry. -/
theorem c6_witness :
    ((100 : ℚ) ≠ 0 ∧
      safe_growth (some 130) (some 100) = some ((130 - 100) / |(100 : ℚ)|)) ∧
    (["2021", "2022"].Nodup ∧
      ("2021", "2022") ∈ yoyAdjacent ["2021", "2022"] ∧
      lookup2 [ ("2021", [("revenue", 100)]), ("2022", [("revenue", 130)]) ]
        "2022" "revenue" = some 130 ∧
      lookup2 [ ("2021", [("revenue", 100)]), ("2022", [("revenue", 130)]) ]
        "2021" "revenue" = some 100 ∧
      lookup
          (growth_for_metric
            [ ("2021", [("revenue", 100)]), ("2022", [("revenue", 130)]) ]
            ["2021", "2022"] "revenue")
          "2022" = some ((130 - 100) / (100 : ℚ))) ∧
    lookup
        (growth_for_metric
          [ ("2021", [("revenue", 100)]), ("2022", [("revenue", 130)]) ]
          ["2021", "2022"] "revenue")
        "2021" = none := by
  refine ⟨⟨by decide, ?_⟩, ⟨by decide, by decide, rfl, rfl, ?_⟩, ?_⟩
  · exact c6_amended.1 130 100 (by decide)
  · exact c6_amended.2.2.2.2.2.2.1
      [ ("2021", [("revenue", 100)]), ("2022", [("revenue", 130)]) ]
      "revenue" ["2021", "2022"] "2021" "2022" 130 100 (by decide)
      (by decide) rfl rfl (by decide)
  · exact c6_amended.2.2.2.2.2.2.2.2
      [ ("2021", [("revenue", 100)]), ("2022", [("revenue", 130)]) ]
      "revenue" "2021" ["2022"] (by decide)

/-- Claim C7 counterexample: with no key period and no available periods
the ValuationAgent does not raise — it yields an event carrying the
all-`None` valuation snapshot and returns. -/
theorem c7_counterexample :
    valuationAgentRun
        { available_periods := [], key_period := none,
          financial_metrics := [], memo_latest := none,
          financials_raw := [], current_price := none } =
      Except.ok noneValuation := rfl

/-- Claim C7 (amended): on a Fact Table with zero periods the Metrics
Computation Engine (FinancialAgent) raises a `ValueError`; the Valuation
Calculator instead emits an explicit all-`None` snapshot — every field
`None`, distinguishable from zero — without raising. -/
theorem c7_amended :
    (∀ facts : List (String × List (String × ℚ)),
      financialAgentRun facts [] =
        Except.error "FinancialAgent: 'available_periods' missing or empty") ∧
    (∀ (facts : List (String × List (String × ℚ))) (periods : List String),
      periods ≠ [] →
      financialAgentRun facts periods =
        Except.ok (financial_metrics_list facts periods none)) ∧
    (∀ st : ValState,
      st.key_period = none → st.available_periods = [] →
      valuationAgentRun st = Except.ok noneValuation) := by
  refine ⟨?_, ?_, ?_⟩
  · intro facts
    rfl
  · intro facts periods h
    rw [financialAgentRun, if_neg h]
  · intro st h1 h2
    rw [valuationAgentRun, h1, h2]
    rfl

/-- Witness for C7 (amended) at concrete inputs. -/
theorem c7_witness :
    financialAgentRun [("revenue", [("2022", 5)])] [] =
      Except.error "FinancialAgent: 'available_periods' missing or empty" ∧
    (["2022"] ≠ ([] : List String) ∧
      financialAgentRun [("revenue", [("2022", (5 : ℚ))])] ["2022"] =
        Except.ok (financial_metrics_list [("revenue", [("2022", 5)])]
          ["2022"] none)) ∧
    valuationAgentRun
        { available_periods := [], key_period := none,
          financial_metrics := [], memo_latest := none,
          financials_raw := [], current_price := some 3 } =
      Except.ok noneValuation := by
  refine ⟨?_, ⟨by decide, ?_⟩, ?_⟩
  · exact c7_amended.1 [("revenue", [("2022", 5)])]
  · exact c7_amended.2.1 [("revenue", [("2022", 5)])] ["2022"] (by decide)
  · exact c7_amended.2.2
      { available_periods := [], key_period := none,
        financial_metrics := [], memo_latest := none,
        financials_raw := [], current_price := some 3 } rfl rfl

/-- Claim C8, the code evaluated at the failing input: the heading regex
`item\s+(\d+[a]?)\.` recognises only the letter suffix `a`/`A`, so
"Item 1B." is never detected as a heading; the only section found is
`item_1a`, there is no `item_1b` entry, and `item_1a`'s text runs past
"Item 1B." to the end of the document instead of stopping before it. -/
theorem c8_code_eval :
    (find_item_headings
        ("Item 1A. Risk Factors\nWe depend on suppliers.\nItem 1B. Unresolved Staff Comments\nNone.\n").toList).map
      (fun h => h.id) = ["item_1a"] ∧
    lookup
        (build_10k_section_map
          "Item 1A. Risk Factors\nWe depend on suppliers.\nItem 1B. Unresolved Staff Comments\nNone.\n").sections_by_id
        "item_1b" = none ∧
    lookup
        (build_10k_section_map
          "Item 1A. Risk Factors\nWe depend on suppliers.\nItem 1B. Unresolved Staff Comments\nNone.\n").sections_by_id
        "item_1a" =
      some
        ⟨"item_1a", "Item 1A. Risk Factors", "1A",
          "Item 1A. Risk Factors\nWe depend on suppliers.\nItem 1B. Unresolved Staff Comments\nNone."⟩ ∧
    containsSub "Item 1B.".toList
      ("Item 1A. Risk Factors\nWe depend on suppliers.\nItem 1B. Unresolved Staff Comments\nNone.").toList = true :=
  ⟨rfl, rfl, rfl, rfl⟩

theorem lookup_entry_map {l : List CatEntry} (g : CatEntry → SectionEntry)
    (hnd : (l.map CatEntry.id).Nodup) {e : CatEntry} (he : e ∈ l) :
    lookup (l.map (fun e => (e.id, g e))) e.id = some (g e) := by
  induction l with
  | nil => simp at he
  | cons hd t ih =>
      rw [List.map_cons, List.nodup_cons] at hnd
      rcases List.mem_cons.mp he with he' | he'
      · rw [he']
        simp [lookup]
      · have hne : hd.id ≠ e.id := by
          intro hh
          exact hnd.1 (hh ▸ List.mem_map.mpr ⟨e, he', rfl⟩)
        simp only [List.map_cons, lookup, hne, if_false]
        exact ih hnd.2 he'

theorem lookup_entry_map_none {l : List CatEntry} (g : CatEntry → SectionEntry)
    (sid : String) (h : sid ∉ l.map CatEntry.id) :
    lookup (l.map (fun e => (e.id, g e))) sid = none := by
  induction l with
  | nil => rfl
  | cons hd t ih =>
      simp only [List.map_cons, List.mem_cons] at h
      push_neg at h
      simp only [List.map_cons, lookup]
      rw [if_neg (Ne.symm h.1)]
      exact ih h.2

theorem lookup_extras (sbi : List (String × Chunk)) (sid : String) (c : Chunk)
    (h : lookup sbi sid = some c) (hnot : sid ∉ catalogueIds) :
    lookup
        (sbi.filterMap
          (fun sc =>
            if sc.1 ∈ catalogueIds then none
            else some (sc.1, otherEntry sc.1 sc.2)))
        sid = some (otherEntry sid c) := by
  induction sbi with
  | nil => simp [lookup] at h
  | cons hd t ih =>
      obtain ⟨k0, c0⟩ := hd
      by_cases hk : k0 = sid
      · subst hk
        rw [lookup] at h
        simp at h
        subst h
        simp [List.filterMap_cons, hnot, lookup]
      · rw [lookup] at h
        simp only [hk, if_false] at h
        by_cases hcat : k0 ∈ catalogueIds
        · simpa [List.filterMap_cons, hcat] using ih h
        · simp only [List.filterMap_cons, hcat, if_false, lookup, hk]
          exact ih h

/-- Claim C10: whenever at least one heading is detected, the Section
Index carries an entry for every catalogue id (overlaid via `_entry`);
an id absent from the document gets `present_in_document = false` and
`approx_char_len = None`; and every detected id outside the catalogue is
appended with section_type "other" and `present_in_document = true`. -/
theorem c10_index_catalogue :
    (∀ full : String, find_item_headings full.toList ≠ [] →
      ∀ e ∈ catalogue,
        lookup (build_10k_section_map full).sections_index e.id =
          some (sectionEntry (build_10k_section_map full).sections_by_id
            e.id e.label e.section_type e.part e.page)) ∧
    (∀ (sbi : List (String × Chunk)) (cid dl st pt : String) (pg : Option ℕ),
      lookup sbi cid = none →
      (sectionEntry sbi cid dl st pt pg).present_in_document = false ∧
        (sectionEntry sbi cid dl st pt pg).approx_char_len = none) ∧
    (∀ (full : String) (sid : String) (c : Chunk),
      find_item_headings full.toList ≠ [] →
      lookup (build_10k_section_map full).sections_by_id sid = some c →
      sid ∉ catalogueIds →
      lookup (build_10k_section_map full).sections_index sid =
          some (otherEntry sid c) ∧
        (otherEntry sid c).section_type = "other" ∧
        (otherEntry sid c).present_in_document = true) := by
  have hbuild : ∀ full : String, find_item_headings full.toList ≠ [] →
      build_10k_section_map full =
        { full_text := full
          sections_by_id :=
            sections_by_id (chunksOf full.toList (find_item_headings full.toList))
          chunks := chunksOf full.toList (find_item_headings full.toList)
          sections_index :=
            build_sections_index
              (sections_by_id
                (chunksOf full.toList (find_item_headings full.toList))) } := by
    intro full h
    rw [build_10k_section_map, if_neg h]
  have hnd : (catalogue.map CatEntry.id).Nodup := by decide
  refine ⟨?_, ?_, ?_⟩
  · intro full h e he
    rw [hbuild full h]
    simp only
    rw [build_sections_index, lookup_append, lookup_entry_map _ hnd he]
  · intro sbi cid dl st pt pg h
    rw [sectionEntry, h]
    exact ⟨rfl, rfl⟩
  · intro full sid c h hc hnot
    rw [hbuild full h] at hc ⊢
    simp only at hc ⊢
    rw [build_sections_index, lookup_append,
      lookup_entry_map_none _ sid hnot, lookup_extras _ sid c hc hnot]
    exact ⟨rfl, rfl, rfl⟩

/-- Witness for C10 on a document containing `item_1a` and the
uncatalogued `item_77`: the catalogued-but-absent `item_7` gets an entry
with `present_in_document = false` and no length, and `item_77` appears
with section_type "other". -/
theorem c10_witness :
    (find_item_headings
        ("Item 1A. Risk Factors\nbody here\nItem 77. Strange Extra Section\nmore\n").toList ≠ [] ∧
      (⟨"item_7",
          "Item 7. Managementâ€™s Discussion and Analysis of Financial Condition and Results of Operations",
          "mdna", "PART II", some 54⟩ : CatEntry) ∈ catalogue ∧
      lookup
          (build_10k_section_map
            "Item 1A. Risk Factors\nbody here\nItem 77. Strange Extra Section\nmore\n").sections_index
          "item_7" =
        some (sectionEntry
          (build_10k_section_map
            "Item 1A. Risk Factors\nbody here\nItem 77. Strange Extra Section\nmore\n").sections_by_id
          "item_7"
          "Item 7. Managementâ€™s Discussion and Analysis of Financial Condition and Results of Operations"
          "mdna" "PART II" (some 54)) ∧
      (sectionEntry
          (build_10k_section_map
            "Item 1A. Risk Factors\nbody here\nItem 77. Strange Extra Section\nmore\n").sections_by_id
          "item_7"
          "Item 7. Managementâ€™s Discussion and Analysis of Financial Condition and Results of Operations"
          "mdna" "PART II" (some 54)).present_in_document = false) ∧
    lookup
        (build_10k_section_map
          "Item 1A. Risk Factors\nbody here\nItem 77. Strange Extra Section\nmore\n").sections_index
        "item_77" =
      some (otherEntry "item_77"
        ⟨"item_77", "Item 77. Strange Extra Section", "77",
          "Item 77. Strange Extra Section\nmore"⟩) := by
  refine ⟨⟨by decide, by decide, ?_, ?_⟩, ?_⟩
  · exact c10_index_catalogue.1
      "Item 1A. Risk Factors\nbody here\nItem 77. Strange Extra Section\nmore\n"
      (by decide)
      ⟨"item_7",
        "Item 7. Managementâ€™s Discussion and Analysis of Financial Condition and Results of Operations",
        "mdna", "PART II", some 54⟩ (by decide)
  · exact (c10_index_catalogue.2.1
      (build_10k_section_map
        "Item 1A. Risk Factors\nbody here\nItem 77. Strange Extra Section\nmore\n").sections_by_id
      "item_7"
      "Item 7. Managementâ€™s Discussion and Analysis of Financial Condition and Results of Operations"
      "mdna" "PART II" (some 54) rfl).1
  · exact (c10_index_catalogue.2.2
      "Item 1A. Risk Factors\nbody here\nItem 77. Strange Extra Section\nmore\n"
      "item_77"
      ⟨"item_77", "Item 77. Strange Extra Section", "77",
        "Item 77. Strange Extra Section\nmore"⟩
      (by decide) rfl (by decide)).1

theorem qdiv_zero (b : ℚ) : qdiv 0 b = 0 := by
  rw [qdiv_eq, zero_div]

theorem mem_insertDesc (x a : ℚ × String) (l : List (ℚ × String)) :
    a ∈ insertDesc x l ↔ a = x ∨ a ∈ l := by
  induction l with
  | nil => simp [insertDesc]
  | cons y t ih =>
      rw [insertDesc]
      split
      · rw [List.mem_cons, ih, List.mem_cons]
        tauto
      · simp only [List.mem_cons]

theorem insertDesc_pairwise (x : ℚ × String) (l : List (ℚ × String))
    (h : l.Pairwise (fun u v => v.1 ≤ u.1)) :
    (insertDesc x l).Pairwise (fun u v => v.1 ≤ u.1) := by
  induction l with
  | nil => simp [insertDesc]
  | cons y t ih =>
      rw [List.pairwise_cons] at h
      rw [insertDesc]
      split
      · rw [List.pairwise_cons]
        refine ⟨fun z hz => ?_, ih h.2⟩
        rcases (mem_insertDesc x z t).mp hz with hz' | hz'
        · rw [hz']
          assumption
        · exact h.1 z hz'
      · rw [List.pairwise_cons]
        refine ⟨fun z hz => ?_, List.pairwise_cons.mpr h⟩
        rcases List.mem_cons.mp hz with hz' | hz'
        · rw [hz']
          exact le_of_lt (lt_of_not_le (by assumption))
        · exact le_trans (h.1 z hz') (le_of_lt (lt_of_not_le (by assumption)))

theorem sortDesc_pairwise (l : List (ℚ × String)) :
    (sortDesc l).Pairwise (fun u v => v.1 ≤ u.1) := by
  rw [sortDesc]
  have : ∀ (acc : List (ℚ × String)),
      acc.Pairwise (fun u v => v.1 ≤ u.1) →
      (l.foldl (fun acc x => insertDesc x acc) acc).Pairwise
        (fun u v => v.1 ≤ u.1) := by
    induction l with
    | nil => intro acc h; simpa using h
    | cons x t ih =>
        intro acc h
        rw [List.foldl_cons]
        exact ih _ (insertDesc_pairwise x acc h)
  exact this [] (by simp)

theorem mem_sortDesc (a : ℚ × String) (l : List (ℚ × String)) :
    a ∈ sortDesc l ↔ a ∈ l := by
  rw [sortDesc]
  have : ∀ (acc : List (ℚ × String)),
      (a ∈ l.foldl (fun acc x => insertDesc x acc) acc ↔ a ∈ acc ∨ a ∈ l) := by
    induction l with
    | nil => intro acc; simp
    | cons x t ih =>
        intro acc
        rw [List.foldl_cons, ih (insertDesc x acc), mem_insertDesc]
        simp
        tauto
  rw [this []]
  simp

theorem selectTopK_mem (m : ℚ) (l : List (ℚ × String)) (k : ℕ) (sid : String)
    (h : sid ∈ selectTopK m l k) : ∃ sc, (sc, sid) ∈ l ∧ m ≤ sc := by
  induction l generalizing k with
  | nil => simp [selectTopK] at h
  | cons hd rest ih =>
      obtain ⟨sc0, sid0⟩ := hd
      rw [selectTopK] at h
      by_cases hlt : sc0 < m
      · simp [hlt] at h
      · rw [if_neg hlt] at h
        by_cases hk : k ≤ 1
        · rw [if_pos hk] at h
          simp at h
          exact ⟨sc0, by simp [h], le_of_not_lt hlt⟩
        · rw [if_neg hk] at h
          rcases List.mem_cons.mp h with h' | h'
          · exact ⟨sc0, by simp [h'], le_of_not_lt hlt⟩
          · obtain ⟨sc, hmem, hle⟩ := ih (k - 1) h'
            exact ⟨sc, by simp [hmem], hle⟩

theorem selectTopK_length (m : ℚ) (l : List (ℚ × String)) (k : ℕ)
    (hk : 1 ≤ k) : (selectTopK m l k).length ≤ k := by
  induction l generalizing k with
  | nil => simp [selectTopK]
  | cons hd rest ih =>
      obtain ⟨sc0, sid0⟩ := hd
      rw [selectTopK]
      by_cases hlt : sc0 < m
      · simp [hlt]
      · rw [if_neg hlt]
        by_cases hk1 : k ≤ 1
        · rw [if_pos hk1]
          simpa using hk
        · rw [if_neg hk1]
          have h2 : 2 ≤ k := by omega
          have := ih (k - 1) (by omega)
          simp only [List.length_cons]
          omega

theorem selectTopK_prefix (m : ℚ) (l : List (ℚ × String)) (k : ℕ) :
    ∃ n, selectTopK m l k = (l.take n).map Prod.snd := by
  induction l generalizing k with
  | nil => exact ⟨0, rfl⟩
  | cons hd rest ih =>
      obtain ⟨sc0, sid0⟩ := hd
      rw [selectTopK]
      by_cases hlt : sc0 < m
      · exact ⟨0, by simp [hlt]⟩
      · rw [if_neg hlt]
        by_cases hk1 : k ≤ 1
        · exact ⟨1, by simp [hk1]⟩
        · obtain ⟨n, hn⟩ := ih (k - 1)
          exact ⟨n + 1, by simp [hk1, hn]⟩

theorem scoredSections_mem (q : String) (sections : List (String × QASection))
    (sc : ℚ) (sid : String) (h : (sc, sid) ∈ scoredSections q sections) :
    ∃ sec, (sid, sec) ∈ sections ∧ sc = score_section_for_question q sec ∧
      0 < sc := by
  rw [scoredSections] at h
  obtain ⟨⟨sid', sec⟩, hmem, hsome⟩ := List.mem_filterMap.mp h
  by_cases hpos : 0 < score_section_for_question q sec
  · rw [if_pos hpos] at hsome
    have h1 : score_section_for_question q sec = sc :=
      congrArg Prod.fst (Option.some.inj hsome)
    have h2 : sid' = sid := congrArg Prod.snd (Option.some.inj hsome)
    exact ⟨sec, h2 ▸ hmem, h1.symm, h1 ▸ hpos⟩
  · rw [if_neg hpos] at hsome
    exact absurd hsome (by simp)

theorem score_zero_of_no_overlap (q : String) (sec : QASection)
    (h : ((normalize_text q).toFinset ∩ section_tokens sec).card = 0) :
    score_section_for_question q sec = 0 := by
  rw [score_section_for_question]
  split
  · rfl
  · rw [h]
    simpa using qdiv_zero _

/-- Claim C9: the fallback score is |q ∩ s| / |q| over the case-folded,
punctuation-stripped tokens of the label plus the first 2000 characters of
the text; every returned section scored at least the minimum (0.15 at the
call site); at most top-K (5) ids are returned; the result lists a prefix
of the score-descending ordering; and a section with zero token overlap
with the query is never returned, for any top-K and any minimum score. -/
theorem c9_fallback_ranking :
    (∀ (q : String) (sec : QASection),
      (normalize_text q).toFinset ≠ ∅ →
      score_section_for_question q sec =
        (((normalize_text q).toFinset ∩ section_tokens sec).card : ℚ) /
          ((normalize_text q).toFinset.card : ℚ)) ∧
    (∀ (q : String) (sections : List (String × QASection)) (sid : String),
      sid ∈ fallback_sections_for_question q sections 5 (mkRat 3 20) →
      ∃ sec, (sid, sec) ∈ sections ∧
        mkRat 3 20 ≤ score_section_for_question q sec ∧
        0 < score_section_for_question q sec) ∧
    (∀ (q : String) (sections : List (String × QASection)),
      (fallback_sections_for_question q sections 5 (mkRat 3 20)).length ≤ 5) ∧
    (∀ (q : String) (sections : List (String × QASection)),
      (sortDesc (scoredSections q sections)).Pairwise
          (fun u v => v.1 ≤ u.1) ∧
        ∃ n, fallback_sections_for_question q sections 5 (mkRat 3 20) =
          ((sortDesc (scoredSections q sections)).take n).map Prod.snd) ∧
    (∀ (q : String) (sections : List (String × QASection)) (sid : String)
        (k : ℕ) (m : ℚ),
      (∀ sec, (sid, sec) ∈ sections →
        ((normalize_text q).toFinset ∩ section_tokens sec).card = 0) →
      sid ∉ fallback_sections_for_question q sections k m) := by
  refine ⟨?_, ?_, ?_, ?_, ?_⟩
  · intro q sec hq
    rw [score_section_for_question]
    split
    · rename_i hsT
      rw [hsT]
      simp
    · have hpos : 0 < (normalize_text q).toFinset.card :=
        Finset.card_pos.mpr (Finset.nonempty_iff_ne_empty.mpr hq)
      rw [Nat.max_eq_left hpos, qdiv_eq]
  · intro q sections sid h
    obtain ⟨sc, hmem, hle⟩ :=
      selectTopK_mem (mkRat 3 20) _ 5 sid h
    obtain ⟨sec, hsec, hsc, hpos⟩ :=
      scoredSections_mem q sections sc sid ((mem_sortDesc _ _).mp hmem)
    exact ⟨sec, hsec, hsc ▸ hle, hsc ▸ hpos⟩
  · intro q sections
    exact selectTopK_length _ _ 5 (by omega)
  · intro q sections
    exact ⟨sortDesc_pairwise _, selectTopK_prefix _ _ 5⟩
  · intro q sections sid k m h hmem
    obtain ⟨sc, hmem', _⟩ := selectTopK_mem m _ k sid hmem
    obtain ⟨sec, hsec, hsc, hpos⟩ :=
      scoredSections_mem q sections sc sid ((mem_sortDesc _ _).mp hmem')
    rw [hsc, score_zero_of_no_overlap q sec (h sec hsec)] at hpos
    exact lt_irrefl 0 hpos

/-- Witness for C9 at a concrete query and index: "risk factors" scores
1 = 2/2 against the Risk Factors section, and the zero-overlap section
never appears in the fallback result. -/
theorem c9_witness :
    ((normalize_text "risk factors").toFinset ≠ ∅ ∧
      score_section_for_question "risk factors"
          ⟨"Item 1A. Risk Factors", "We face risks."⟩ =
        (((normalize_text "risk factors").toFinset ∩
            section_tokens ⟨"Item 1A. Risk Factors", "We face risks."⟩).card : ℚ) /
          (((normalize_text "risk factors").toFinset.card : ℕ) : ℚ)) ∧
    "item_zero" ∉
      fallback_sections_for_question "risk factors"
        [ ("item_1a", ⟨"Item 1A. Risk Factors", "We face risks."⟩),
          ("item_zero", ⟨"Nothing here", "unrelated words only"⟩) ]
        7 (mkRat 3 20) := by
  constructor
  · exact ⟨by decide, c9_fallback_ranking.1 "risk factors"
      ⟨"Item 1A. Risk Factors", "We face risks."⟩ (by decide)⟩
  · refine c9_fallback_ranking.2.2.2.2 "risk factors"
      [ ("item_1a", ⟨"Item 1A. Risk Factors", "We face risks."⟩),
        ("item_zero", ⟨"Nothing here", "unrelated words only"⟩) ]
      "item_zero" 7 (mkRat 3 20) ?_
    intro sec hsec
    simp only [List.mem_cons, List.mem_singleton, List.not_mem_nil,
      or_false] at hsec
    rcases hsec with hsec | hsec
    · exfalso
      injection hsec with hh1 hh2
      exact absurd hh1 (by decide)
    · have : sec = ⟨"Nothing here", "unrelated words only"⟩ :=
        congrArg Prod.snd hsec
      rw [this]
      decide

end DD
